import Mathlib

/-!
# Allihoopa desktop SDK: the pipe client (`allihoopa.c`)

A shallow embedding of the client side of the Allihoopa pipe protocol:
the request dispatcher `callApp`, the public entry points `AHsetup`,
`AHdrop`, `AHclose`, `AHpollCompletedRequests`, and the POSIX transport
(`initAppConnection`, `waitForData`, `readFromApp`, `writeToApp`).

The C code keeps its connection in process-wide variables and talks to the
operating system.  Here the variables and the operating system are one
explicit `World` value that every function takes and returns.  What the
operating system and the companion process will do is scripted inside the
world; an exhausted script means "behaves normally" (launches and writes
succeed, allocation succeeds) and, for the pipe, "nothing more ever arrives".

Bytes are natural numbers below 256.  Both supported targets are
little-endian, so `(char*) &x, 2` is the low byte of `x` followed by the next
one.
-/

namespace Allihoopa

/-! ## `enum AHErrors` and `AHMaxRequestBody` (allihoopa.h) -/

abbrev AHErrorAppNotFound : Int := 451
abbrev AHErrorLaunchFailure : Int := 452
abbrev AHErrorCommsFailure : Int := 453
abbrev AHErrorInvalidRequest : Int := 454
abbrev AHErrorOutOfMemory : Int := 455
abbrev AHRequestFailed : Int := 456
abbrev AHErrorUnknownError : Int := 457

abbrev AHMaxRequestBody : Nat := 65535

/-! ## The operating system and the companion process -/

/-- Result of `poll(&pollFor, 1, 5000)`: 1, 0 or a negative value. -/
inductive PollOutcome
  | ready
  | timeout
  | failure
  deriving DecidableEq, Repr

/-- Values of `errno` after a failed `read`, other than `EAGAIN`. -/
inductive ReadErrno
  | EINVAL
  | EFAULT
  | EIO
  deriving DecidableEq, Repr

/-- One thing the non-blocking pipe from the companion does when `read` is
called on it.
* `data bs`: `bs` is in the pipe; `read` returns the first
  `min bs.length bytesWanted` bytes and leaves the others in the pipe;
* `eof`: `read` returns 0;
* `wouldBlock p`: `read` returns -1 with `errno = EAGAIN`, and the `poll`
  that follows has outcome `p`;
* `fails e`: `read` returns -1 with `errno = e`. -/
inductive PipeEvent
  | data (bs : List Nat)
  | eof
  | wouldBlock (p : PollOutcome)
  | fails (e : ReadErrno)
  deriving DecidableEq, Repr

/-- What happens when `initAppConnection` has to start the companion. -/
inductive LaunchOutcome
  | ok
  | popenFails
  | fcntlFails
  deriving DecidableEq, Repr

/-- The static variables of `allihoopa.c` together with the environment.
* `appPipe`: `appPipe != 0`;
* `launches`: how many companion processes `popen` has started;
* `closes`: how many times `pclose` has run;
* `outbox`: every byte `write` has put into the pipe, oldest first;
* `inbox`: what the pipe from the running companion will yield;
* `upcoming`: the pipes of the companions that later launches start;
* `launchScript`: outcomes of the coming launches;
* `writeScript`: for each coming `write`, `none` if it returns -1 and
  `some cap` if the pipe takes at most `cap` bytes;
* `mallocScript`: for each coming `malloc`, whether it yields a buffer. -/
structure World where
  appPipe : Bool
  launches : Nat
  closes : Nat
  outbox : List Nat
  inbox : List PipeEvent
  upcoming : List (List PipeEvent)
  launchScript : List LaunchOutcome
  writeScript : List (Option Nat)
  mallocScript : List Bool
  deriving DecidableEq, Repr

/-! ## POSIX transport (allihoopa.c, `TARGET_OS_MAC` part) -/

/-- The state after `popen` has started a companion: the handle is set and
the pipe of the new process replaces the old one. -/
def World.launched (w : World) : World :=
  { w with
    appPipe := true
    launches := w.launches + 1
    inbox := w.upcoming.headD []
    upcoming := w.upcoming.tail
    launchScript := w.launchScript.tail }

/-- Lines 470-486.  Reuses the handle when there is one, launches
otherwise.  When `fcntl` fails the companion has been started and the handle
stays set. -/
def initAppConnection (w : World) : Int × World :=
  if w.appPipe then (0, w)
  else
    match w.launchScript.headD LaunchOutcome.ok with
    | LaunchOutcome.popenFails =>
        (AHErrorLaunchFailure, { w with launchScript := w.launchScript.tail })
    | LaunchOutcome.fcntlFails => (AHErrorLaunchFailure, w.launched)
    | LaunchOutcome.ok => (0, w.launched)

/-- Lines 488-510, as a function of the result of `poll`. -/
def waitForData (p : PollOutcome) : Int :=
  match p with
  | PollOutcome.ready => 0
  | PollOutcome.timeout => AHErrorCommsFailure
  | PollOutcome.failure => AHErrorCommsFailure

/-- The state after `pclose(appPipe); appPipe = 0; appPipeFD = 0`. -/
def World.closed (w : World) : World :=
  { w with appPipe := false, closes := w.closes + 1, inbox := [] }

/-- The `do ... while` of `readFromApp` (lines 520-555), one iteration per
pipe event.  `total` is `totalBytesRead`, `buf` the part of `data` filled so
far, the list argument what the pipe will still do.  A request for zero
bytes is answered with zero bytes at once.  An exhausted pipe behaves as
`wouldBlock timeout`. -/
def readLoop (length : Nat) (w : World) :
    List PipeEvent → Nat → List Nat → Int × List Nat × World
  | pipe, total, buf =>
    let bytesWanted := length - total
    if bytesWanted = 0 then (0, buf, { w with inbox := pipe })
    else
      match pipe with
      | [] => (waitForData PollOutcome.timeout, buf, { w with inbox := [] })
      | PipeEvent.data bs :: rest =>
          let got := bs.take bytesWanted
          let left := bs.drop bytesWanted
          if got.length ≠ bytesWanted then
            if got.length = 0 then
              (AHErrorCommsFailure, buf, { w with inbox := rest }.closed)
            else readLoop length w rest (total + got.length) (buf ++ got)
          else
            (0, buf ++ got,
              { w with inbox := if left = [] then rest else PipeEvent.data left :: rest })
      | PipeEvent.eof :: rest =>
          (AHErrorCommsFailure, buf, { w with inbox := rest }.closed)
      | PipeEvent.wouldBlock p :: rest =>
          let waitResult := waitForData p
          if waitResult ≠ 0 then (waitResult, buf, { w with inbox := rest })
          else readLoop length w rest total buf
      | PipeEvent.fails ReadErrno.EINVAL :: rest =>
          (AHErrorCommsFailure, buf, { w with inbox := rest })
      | PipeEvent.fails ReadErrno.EFAULT :: rest =>
          (AHErrorUnknownError, buf, { w with inbox := rest })
      | PipeEvent.fails ReadErrno.EIO :: rest =>
          (AHErrorCommsFailure, buf, { w with inbox := rest })

/-- Lines 512-558: result code, the bytes stored into `data`, new state. -/
def readFromApp (length : Nat) (w : World) : Int × List Nat × World :=
  let c := initAppConnection w
  if c.1 ≠ 0 then (c.1, [], c.2)
  else readLoop length c.2 c.2.inbox 0 []

/-- Lines 560-571, with `data[0 .. length)` passed as a list. -/
def writeToApp (data : List Nat) (w : World) : Int × World :=
  let c := initAppConnection w
  if c.1 ≠ 0 then (c.1, c.2)
  else
    match c.2.writeScript with
    | [] => (0, { c.2 with outbox := c.2.outbox ++ data })
    | none :: rest => (AHErrorCommsFailure, { c.2 with writeScript := rest })
    | some cap :: rest =>
        let bytesWritten := min cap data.length
        if bytesWritten ≠ data.length then
          (AHErrorCommsFailure,
            { c.2 with outbox := c.2.outbox ++ data.take cap, writeScript := rest })
        else (0, { c.2 with outbox := c.2.outbox ++ data, writeScript := rest })

/-- Outcome of `malloc`: whether a buffer was obtained. -/
def malloc (w : World) : Bool × World :=
  match w.mallocScript with
  | [] => (true, w)
  | b :: rest => (b, { w with mallocScript := rest })

/-! ## Request dispatcher -/

/-- The two bytes of a `short int` in memory (two's complement). -/
def int16Bytes (x : Int) : List Nat :=
  let u := (x % 65536).toNat
  [u % 256, u / 256 % 256]

/-- The first two bytes of a `size_t` in memory. -/
def sizeLow2Bytes (n : Nat) : List Nat := [n % 256, n / 256 % 256]

/-- The `short unsigned int` whose memory holds the two bytes. -/
def uint16OfBytes (bs : List Nat) : Nat := bs.getD 0 0 % 256 + 256 * (bs.getD 1 0 % 256)

/-- The `short int` whose memory holds the two bytes. -/
def int16OfBytes (bs : List Nat) : Int :=
  if uint16OfBytes bs < 32768 then (uint16OfBytes bs : Int) else (uint16OfBytes bs : Int) - 65536

/-- The bytes of `AOK.chars`: 'o', 'k', 'a', 'y'. -/
def AOK : List Nat := [111, 107, 97, 121]

/-- Lines 202-215: the comparison of the status tag with `AOK`, which ends
`callApp`; `out` is what has been stored through `oBody`/`oBodyLength`. -/
def checkReply (reply : List Nat) (out : Option (List Nat × Nat)) (w : World) :
    Int × Option (List Nat × Nat) × World :=
  if reply ≠ AOK then (AHRequestFailed, out, w) else (0, out, w)

/-- Lines 156-215, the second half of `callApp`: reads the reply header,
checks the echoed identifier, reads the reply body when there is one and
compares the status tag. -/
def readReply (requestID : Int) (oBody : Bool) (w : World) :
    Int × Option (List Nat × Nat) × World :=
  let q1 := readFromApp 4 w
  if q1.1 ≠ 0 then (q1.1, none, q1.2.2) else
  let reply := q1.2.1
  let q2 := readFromApp 2 q1.2.2
  if q2.1 ≠ 0 then (q2.1, none, q2.2.2) else
  let responseID := int16OfBytes q2.2.1
  if responseID ≠ requestID then (AHErrorCommsFailure, none, q2.2.2) else
  let q3 := readFromApp 2 q2.2.2
  if q3.1 ≠ 0 then (q3.1, none, q3.2.2) else
  let replyBodyLength := uint16OfBytes q3.2.1
  if replyBodyLength > 0 then
    let m := malloc q3.2.2
    if m.1 = false then (AHErrorOutOfMemory, none, m.2) else
    let q4 := readFromApp replyBodyLength m.2
    if q4.1 ≠ 0 then (q4.1, none, q4.2.2) else
    checkReply reply (if oBody then some (q4.2.1, replyBodyLength) else none) q4.2.2
  else checkReply reply none q3.2.2

/-- Lines 117-216.  `command` and `data` are `none` for a null pointer;
`oBody` says whether the caller passed a place for the reply body.  The
result is the return code, what was stored through `oBody` and `oBodyLength`
(`none` when nothing was stored) and the new state. -/
def callApp (requestID : Int) (command : Option (List Nat)) (data : Option (List Nat))
    (dataLength : Nat) (oBody : Bool) (w : World) :
    Int × Option (List Nat × Nat) × World :=
  match command with
  | none => (AHErrorInvalidRequest, none, w)
  | some cmd =>
    if data = none ∧ dataLength ≠ 0 then (AHErrorInvalidRequest, none, w)
    else if data ≠ none ∧ dataLength = 0 then (AHErrorInvalidRequest, none, w)
    else if dataLength > AHMaxRequestBody then (AHErrorInvalidRequest, none, w)
    else
      let r1 := writeToApp (cmd.take 4) w
      if r1.1 ≠ 0 then (r1.1, none, r1.2) else
      let r2 := writeToApp (int16Bytes requestID) r1.2
      if r2.1 ≠ 0 then (r2.1, none, r2.2) else
      let r3 := writeToApp (sizeLow2Bytes dataLength) r2.2
      if r3.1 ≠ 0 then (r3.1, none, r3.2) else
      let r4 := writeToApp ((data.getD []).take dataLength) r3.2
      if r4.1 ≠ 0 then (r4.1, none, r4.2) else
      readReply requestID oBody r4.2

/-! ## Exported functions -/

/-- The command tags "init", "drop", "quit", "poll". -/
def cmdInit : List Nat := [105, 110, 105, 116]
def cmdDrop : List Nat := [100, 114, 111, 112]
def cmdQuit : List Nat := [113, 117, 105, 116]
def cmdPoll : List Nat := [112, 111, 108, 108]

/-- Lines 53-58. -/
def AHsetup (setupData : Option (List Nat)) (setupDataLength : Nat) (w : World) :
    Int × World :=
  if setupData = none ∨ setupDataLength = 0 then (AHErrorInvalidRequest, w)
  else
    let r := callApp 0 (some cmdInit) setupData setupDataLength false w
    (r.1, r.2.2)

/-- Lines 60-65. -/
def AHdrop (dropData : Option (List Nat)) (dropDataLength : Nat) (requestID : Int)
    (w : World) : Int × World :=
  if dropData = none ∨ dropDataLength = 0 ∨ requestID = 0 then (AHErrorInvalidRequest, w)
  else
    let r := callApp requestID (some cmdDrop) dropData dropDataLength false w
    (r.1, r.2.2)

/-- Lines 67-71. -/
def AHclose (w : World) : Int × World :=
  let result := callApp 0 (some cmdQuit) none 0 false w
  (result.1, result.2.2)

/-- The `do ... while` of `AHpollCompletedRequests` (lines 76-96); `fuel`
bounds the number of iterations and `calls` lists the handler invocations
made so far, each with its two arguments.  `none` means the bound was reached
with the loop still running. -/
def pollLoop : Nat → World → List (List Nat × Nat) →
    Option (Int × List (List Nat × Nat) × World)
  | 0, _, _ => none
  | fuel + 1, w, calls =>
    let r := callApp 0 (some cmdPoll) none 0 true w
    let pollResult := r.1
    let body := (r.2.1.map Prod.fst).getD []
    let bodyLength := (r.2.1.map Prod.snd).getD 0
    if pollResult = 0 then
      if bodyLength > AHMaxRequestBody then some (AHErrorCommsFailure, calls, r.2.2)
      else if bodyLength ≠ 0 then
        pollLoop fuel r.2.2 (calls ++ [(body, bodyLength % 65536)])
      else some (0, calls, r.2.2)
    else some (pollResult, calls, r.2.2)

/-- Lines 73-99. -/
def AHpollCompletedRequests (fuel : Nat) (w : World) :
    Option (Int × List (List Nat × Nat) × World) :=
  pollLoop fuel w []

/-- Lines 101-115.  The `switch` has labels for five codes, the label
`AHErrorUnknownError` standing on the `default` branch; every other value,
`AHRequestFailed` and `AHErrorAppNotFound` included, takes `default`. -/
def AHerrorCodeToMessage (errorCode : Int) : String :=
  if errorCode = AHErrorCommsFailure then "App communication failure"
  else if errorCode = AHErrorInvalidRequest then "Invalid request"
  else if errorCode = AHErrorLaunchFailure then "App launch failure"
  else if errorCode = AHErrorOutOfMemory then "Out of memory"
  else if errorCode = AHErrorUnknownError then "Unknown error"
  else "Unknown error"

/-! ## Vocabulary of the specification -/

/-- The bytes the companion delivers before the pipe first fails to deliver:
data chunks, possibly separated by waits that end with the descriptor ready,
up to the first end of stream, error, timed-out or failed wait, or the end of
the script. -/
def stream : List PipeEvent → List Nat
  | [] => []
  | PipeEvent.data bs :: rest => if bs = [] then [] else bs ++ stream rest
  | PipeEvent.wouldBlock PollOutcome.ready :: rest => stream rest
  | _ :: _ => []

/-- A transport whose writes all succeed: every scripted `write` takes a
whole message part, whatever its size up to `AHMaxRequestBody`. -/
def WritesSucceed (w : World) : Prop :=
  ∀ o ∈ w.writeScript, ∃ cap, o = some cap ∧ AHMaxRequestBody ≤ cap

instance (w : World) : Decidable (WritesSucceed w) :=
  decidable_of_iff
    (∀ o ∈ w.writeScript, (o.map fun cap => decide (AHMaxRequestBody ≤ cap)) = some true)
    (by
      unfold WritesSucceed
      constructor
      · intro h o ho
        have := h o ho
        cases o with
        | none => simp at this
        | some cap => exact ⟨cap, rfl, by simpa using this⟩
      · intro h o ho
        obtain ⟨cap, rfl, hc⟩ := h o ho
        simpa using hc)

/-- Every scripted allocation yields a buffer. -/
def MallocsSucceed (w : World) : Prop := ∀ b ∈ w.mallocScript, b = true

instance (w : World) : Decidable (MallocsSucceed w) := by
  unfold MallocsSucceed; infer_instance

/-- Two bytes, least significant first, of a number below 65536. -/
def le16 (n : Nat) : List Nat := [n % 256, n / 256]

/-- The 16-bit two's complement pattern of a signed 16-bit value. -/
def twosComplement16 (x : Int) : Nat := if 0 ≤ x then x.toNat else (x + 65536).toNat

/-- The request on the wire as the protocol describes it: command,
identifier, body length, body. -/
def requestFrame (command : List Nat) (requestID : Int) (body : List Nat) : List Nat :=
  command ++ le16 (twosComplement16 requestID) ++ le16 body.length ++ body

/-- The reply on the wire as the protocol describes it: status, echoed
identifier, body length, body. -/
def replyFrame (status : List Nat) (requestID : Int) (body : List Nat) : List Nat :=
  status ++ le16 (twosComplement16 requestID) ++ le16 body.length ++ body

/-- Starting in `w`, successive "poll" requests succeed and store the bodies
`rs` (each with its length), in this order, leaving the state `w2`. -/
def PollsDeliver : World → List (List Nat × Nat) → World → Prop
  | w, [], w2 => w = w2
  | w, r :: rs, w2 =>
      ∃ w1, callApp 0 (some cmdPoll) none 0 true w = (0, some r, w1) ∧ PollsDeliver w1 rs w2

/-- After the bytes of `stream`, the companion sends nothing in time: the
deliveries are followed by a wait that times out, or the script ends (which
the transport treats in the same way). -/
def stalls : List PipeEvent → Bool
  | [] => true
  | PipeEvent.data bs :: rest => if bs = [] then false else stalls rest
  | PipeEvent.wouldBlock PollOutcome.ready :: rest => stalls rest
  | PipeEvent.wouldBlock PollOutcome.timeout :: _ => true
  | _ :: _ => false

/-- The bytes `pre` stop short of a whole reply to the request `requestID`:
they end inside the status tag or the identifier, or the identifier is the
request's and they end inside the length field or before the end of the body
that the length field announces. -/
def ReplyIncomplete (requestID : Int) (pre : List Nat) : Prop :=
  pre.length < 6 ∨
  (int16OfBytes ((pre.drop 4).take 2) = requestID ∧
    (pre.length < 8 ∨ pre.length < 8 + uint16OfBytes ((pre.drop 6).take 2)))

instance (requestID : Int) (pre : List Nat) : Decidable (ReplyIncomplete requestID pre) := by
  unfold ReplyIncomplete; infer_instance

/-- A world in which no companion has been started yet, with the scripted
outcomes `mallocs` of the coming allocations. -/
def freshWorldAlloc (pipes : List (List PipeEvent)) (mallocs : List Bool) : World :=
  { appPipe := false, launches := 0, closes := 0, outbox := [], inbox := [], upcoming := pipes,
    launchScript := [], writeScript := [], mallocScript := mallocs }

/-! ## Example worlds -/

/-- A world in which no companion has been started yet; `pipes` are the
pipes of the companions that will be started. -/
def freshWorld (pipes : List (List PipeEvent)) : World :=
  { appPipe := false, launches := 0, closes := 0, outbox := [], inbox := [], upcoming := pipes,
    launchScript := [], writeScript := [], mallocScript := [] }

/-- A world with one running companion whose pipe will yield `pipe`. -/
def liveWorld (pipe : List PipeEvent) : World :=
  { appPipe := true, launches := 1, closes := 0, outbox := [], inbox := pipe, upcoming := [],
    launchScript := [], writeScript := [], mallocScript := [] }

/-! ## The transport -/

/-- With the handle set, `initAppConnection` changes nothing. -/
theorem initAppConnection_live (w : World) (h : w.appPipe = true) :
    initAppConnection w = (0, w) := by
  simp [initAppConnection, h]

/-- A connection attempt that succeeds leaves the handle set and touches
neither what was written nor the scripts of writes and allocations. -/
theorem initAppConnection_ok (w : World) (h : (initAppConnection w).1 = 0) :
    (initAppConnection w).2.appPipe = true ∧
    (initAppConnection w).2.outbox = w.outbox ∧
    (initAppConnection w).2.writeScript = w.writeScript ∧
    (initAppConnection w).2.mallocScript = w.mallocScript ∧
    (initAppConnection w).2.closes = w.closes := by
  unfold initAppConnection at h ⊢
  by_cases hp : w.appPipe = true
  · simp [hp]
  · simp only [hp] at h ⊢
    cases hl : w.launchScript.headD LaunchOutcome.ok <;> simp_all [World.launched]

/-- Connecting writes nothing. -/
theorem initAppConnection_outbox (w : World) :
    (initAppConnection w).2.outbox = w.outbox := by
  unfold initAppConnection
  by_cases hp : w.appPipe = true
  · simp [hp]
  · simp only [hp]
    cases hl : w.launchScript.headD LaunchOutcome.ok <;> simp [World.launched]

/-- A read of `length - total` more bytes succeeds when the companion
delivers that many: it returns exactly the next bytes of the stream and
leaves the following ones in the pipe. -/
theorem readLoop_stream (length : Nat) (w : World) :
    ∀ (pipe : List PipeEvent) (total : Nat) (buf : List Nat),
      length - total ≤ (stream pipe).length →
      ∃ pipe2, stream pipe2 = (stream pipe).drop (length - total) ∧
        readLoop length w pipe total buf
          = (0, buf ++ (stream pipe).take (length - total), { w with inbox := pipe2 }) := by
  intro pipe
  induction pipe with
  | nil =>
    intro total buf h
    simp [stream] at h
    refine ⟨[], ?_⟩
    rw [readLoop.eq_def]; simp [stream, h]
  | cons ev rest ih =>
    intro total buf h
    by_cases h0 : length - total = 0
    · refine ⟨ev :: rest, ?_⟩
      rw [readLoop.eq_def]
      simp [h0]
    · cases ev with
      | data bs =>
        by_cases hbs : bs = []
        · simp [stream, hbs] at h; omega
        · simp only [stream, hbs, if_false] at h ⊢
          rw [readLoop.eq_def]
          simp only [h0, if_false]
          by_cases hlt : bs.length < length - total
          · have hne : bs.length ≠ 0 := by
              intro hz; exact hbs (List.length_eq_zero.mp hz)
            have htake : bs.take (length - total) = bs := List.take_of_length_le (by omega)
            simp only [htake]
            have h1 : bs.length ≠ length - total := by omega
            simp only [h1, hne, ne_eq, not_false_eq_true, if_true, if_false]
            have hle : length - (total + bs.length) ≤ (stream rest).length := by
              simp at h; omega
            obtain ⟨pipe2, hp2, heq⟩ := ih (total + bs.length) (buf ++ bs) hle
            refine ⟨pipe2, ?_, ?_⟩
            · rw [hp2, List.drop_append_eq_append_drop]
              have : bs.drop (length - total) = [] := List.drop_of_length_le (by omega)
              simp [this]; congr 1; omega
            · rw [heq, List.take_append_eq_append_take, htake]
              simp; congr 1; omega
          · have hlen : (bs.take (length - total)).length = length - total := by
              simp; omega
            simp only [hlen, ne_eq, not_true_eq_false, if_false]
            refine ⟨if bs.drop (length - total) = [] then rest
                else PipeEvent.data (bs.drop (length - total)) :: rest, ?_, ?_⟩
            · rw [List.drop_append_eq_append_drop]
              have hz : length - total - bs.length = 0 := by omega
              by_cases hd : bs.drop (length - total) = []
              · simp [hd, hz]
              · simp [hd, hz, stream]
            · rw [List.take_append_eq_append_take]
              have hz : length - total - bs.length = 0 := by omega
              simp [hz]
      | eof => simp [stream] at h; omega
      | wouldBlock p =>
        cases p with
        | ready =>
          simp only [stream] at h ⊢
          rw [readLoop.eq_def]
          simp only [h0, if_false, waitForData]
          obtain ⟨pipe2, hp2, heq⟩ := ih total buf h
          exact ⟨pipe2, hp2, by simpa using heq⟩
        | timeout => simp [stream] at h; omega
        | failure => simp [stream] at h; omega
      | fails e => simp [stream] at h; omega

/-- On a live connection a read of `n` bytes succeeds when the companion
delivers `n` bytes, returns them and leaves the rest of the stream. -/
theorem readFromApp_stream (n : Nat) (w : World) (hl : w.appPipe = true)
    (h : n ≤ (stream w.inbox).length) :
    ∃ pipe2, stream pipe2 = (stream w.inbox).drop n ∧
      readFromApp n w = (0, (stream w.inbox).take n, { w with inbox := pipe2 }) := by
  obtain ⟨pipe2, hp2, heq⟩ := readLoop_stream n w w.inbox 0 [] (by simpa using h)
  refine ⟨pipe2, by simpa using hp2, ?_⟩
  simp only [readFromApp, initAppConnection_live w hl, ne_eq, not_true_eq_false, if_false]
  simpa using heq

/-- What a read never changes, and what it leaves alone when it succeeds. -/
theorem readLoop_frame (length : Nat) (w : World) :
    ∀ (pipe : List PipeEvent) (total : Nat) (buf : List Nat),
      (readLoop length w pipe total buf).2.2.launches = w.launches ∧
      (readLoop length w pipe total buf).2.2.outbox = w.outbox ∧
      (readLoop length w pipe total buf).2.2.writeScript = w.writeScript ∧
      (readLoop length w pipe total buf).2.2.mallocScript = w.mallocScript ∧
      ((readLoop length w pipe total buf).1 = 0 →
        (readLoop length w pipe total buf).2.2.appPipe = w.appPipe ∧
        (readLoop length w pipe total buf).2.2.closes = w.closes) := by
  intro pipe
  induction pipe with
  | nil =>
    intro total buf
    rw [readLoop.eq_def]
    by_cases h0 : length - total = 0 <;> simp [h0, waitForData]
  | cons ev rest ih =>
    intro total buf
    rw [readLoop.eq_def]
    by_cases h0 : length - total = 0
    · simp [h0]
    · cases ev with
      | data bs =>
        simp only [h0, if_false]
        split_ifs <;> first | exact ih _ _ | simp [World.closed]
      | eof => simp [h0, World.closed]
      | wouldBlock p =>
        cases p with
        | ready => simpa [h0, waitForData] using ih total buf
        | timeout => simp [h0, waitForData]
        | failure => simp [h0, waitForData]
      | fails e => cases e <;> simp [h0]

/-- What `readFromApp` leaves alone on a live connection. -/
theorem readFromApp_frame (n : Nat) (w : World) (h : w.appPipe = true) :
    (readFromApp n w).2.2.launches = w.launches ∧
    (readFromApp n w).2.2.outbox = w.outbox ∧
    (readFromApp n w).2.2.writeScript = w.writeScript ∧
    (readFromApp n w).2.2.mallocScript = w.mallocScript ∧
    ((readFromApp n w).1 = 0 →
      (readFromApp n w).2.2.appPipe = true ∧
      (readFromApp n w).2.2.closes = w.closes) := by
  have hf := readLoop_frame n w w.inbox 0 []
  simp only [readFromApp, initAppConnection_live w h, ne_eq, not_true_eq_false, if_false]
  rw [h] at hf
  exact hf

/-- A read writes nothing. -/
theorem readFromApp_outbox (n : Nat) (w : World) :
    (readFromApp n w).2.2.outbox = w.outbox := by
  unfold readFromApp
  by_cases hc : (initAppConnection w).1 = 0
  · have hf := readLoop_frame n (initAppConnection w).2 (initAppConnection w).2.inbox 0 []
    simp only [hc, ne_eq, not_true_eq_false, if_false]
    rw [hf.2.1, initAppConnection_outbox]
  · simp only [hc, ne_eq, not_false_eq_true, if_true]
    exact initAppConnection_outbox w

/-- A write on a live connection keeps it live and launches nothing. -/
theorem writeToApp_frame (data : List Nat) (w : World) (h : w.appPipe = true) :
    (writeToApp data w).2.launches = w.launches ∧
    (writeToApp data w).2.appPipe = true ∧
    (writeToApp data w).2.closes = w.closes ∧
    (writeToApp data w).2.inbox = w.inbox ∧
    (writeToApp data w).2.mallocScript = w.mallocScript := by
  simp only [writeToApp, initAppConnection_live w h, ne_eq, not_true_eq_false, if_false]
  cases hs : w.writeScript with
  | nil => simp [h]
  | cons o rest =>
    cases o with
    | none => simp [h]
    | some cap => simp only []; split_ifs <;> simp [h]

/-- An allocation does not touch the connection. -/
theorem malloc_frame (w : World) :
    (malloc w).2.launches = w.launches ∧ (malloc w).2.appPipe = w.appPipe ∧
    (malloc w).2.closes = w.closes ∧ (malloc w).2.outbox = w.outbox ∧
    (malloc w).2.inbox = w.inbox ∧ (malloc w).2.writeScript = w.writeScript := by
  unfold malloc
  cases w.mallocScript <;> simp

/-! ## The codec and the writing half of `callApp` -/

/-- The bytes of a `short int` in memory are its two's complement pattern,
least significant byte first. -/
theorem int16Bytes_eq (x : Int) (h1 : -32768 ≤ x) (h2 : x ≤ 32767) :
    int16Bytes x = le16 (twosComplement16 x) := by
  unfold int16Bytes le16 twosComplement16
  by_cases hx : 0 ≤ x
  · have e : (x % 65536).toNat = x.toNat := by omega
    simp only [hx, if_true, e]
    have : x.toNat / 256 % 256 = x.toNat / 256 := by omega
    rw [this]
  · have e : (x % 65536).toNat = (x + 65536).toNat := by omega
    simp only [hx, if_false, e]
    have : (x + 65536).toNat / 256 % 256 = (x + 65536).toNat / 256 := by omega
    rw [this]

/-- The first two bytes of a length up to 65535 are the length, least
significant byte first. -/
theorem sizeLow2Bytes_eq (n : Nat) (h : n ≤ AHMaxRequestBody) : sizeLow2Bytes n = le16 n := by
  unfold sizeLow2Bytes le16
  have : n / 256 % 256 = n / 256 := by simp only [AHMaxRequestBody] at h; omega
  rw [this]

/-- Decoding undoes encoding for lengths. -/
theorem uint16OfBytes_le16 (n : Nat) (h : n ≤ AHMaxRequestBody) :
    uint16OfBytes (le16 n) = n := by
  simp only [AHMaxRequestBody] at h
  simp only [uint16OfBytes, le16, List.getD_cons_zero, List.getD_cons_succ]
  omega

/-- Decoding undoes encoding for identifiers. -/
theorem int16OfBytes_le16 (x : Int) (h1 : -32768 ≤ x) (h2 : x ≤ 32767) :
    int16OfBytes (le16 (twosComplement16 x)) = x := by
  have hb : twosComplement16 x ≤ AHMaxRequestBody := by
    unfold twosComplement16; split_ifs <;> simp only [AHMaxRequestBody] <;> omega
  unfold int16OfBytes
  rw [uint16OfBytes_le16 _ hb]
  unfold twosComplement16
  split_ifs <;> omega

/-- A decoded length fits 16 bits. -/
theorem uint16OfBytes_le (bs : List Nat) : uint16OfBytes bs ≤ AHMaxRequestBody := by
  simp only [uint16OfBytes, AHMaxRequestBody]; omega

/-- On a live connection whose writes succeed, a write of up to 65535 bytes
returns 0 and appends exactly these bytes. -/
theorem writeToApp_ok (data : List Nat) (w : World) (hl : w.appPipe = true)
    (hw : WritesSucceed w) (hd : data.length ≤ AHMaxRequestBody) :
    writeToApp data w
      = (0, { w with outbox := w.outbox ++ data, writeScript := w.writeScript.tail }) := by
  simp only [writeToApp, initAppConnection_live w hl, ne_eq, not_true_eq_false, if_false]
  cases hs : w.writeScript with
  | nil => simp
  | cons o rest =>
    obtain ⟨cap, ho, hcap⟩ := hw o (by simp [hs])
    subst ho
    have : min cap data.length = data.length := by omega
    simp [this]

/-- A write that has to connect first behaves as the write after connecting. -/
theorem writeToApp_connect (data : List Nat) (w : World) (h : (initAppConnection w).1 = 0) :
    writeToApp data w = writeToApp data (initAppConnection w).2 := by
  have hl := (initAppConnection_ok w h).1
  rw [writeToApp, writeToApp, initAppConnection_live _ hl]
  simp [h]

/-- A valid call that has to connect first behaves as the call after
connecting. -/
theorem callApp_connect (requestID : Int) (cmd : List Nat) (data : Option (List Nat))
    (dataLength : Nat) (oBody : Bool) (w : World) (h : (initAppConnection w).1 = 0)
    (hv1 : ¬ (data = none ∧ dataLength ≠ 0)) (hv2 : ¬ (data ≠ none ∧ dataLength = 0))
    (hv3 : dataLength ≤ AHMaxRequestBody) :
    callApp requestID (some cmd) data dataLength oBody w
      = callApp requestID (some cmd) data dataLength oBody (initAppConnection w).2 := by
  have hv3n : ¬ dataLength > AHMaxRequestBody := by omega
  simp only [callApp, hv1, hv2, hv3n, if_false]
  rw [writeToApp_connect _ w h]

/-- The writing half of a valid call on a live connection whose writes
succeed: the four parts of the request are appended and the call continues
with reading the reply. -/
theorem callApp_writes (requestID : Int) (cmd : List Nat) (data : Option (List Nat))
    (dataLength : Nat) (oBody : Bool) (w : World) (hl : w.appPipe = true)
    (hw : WritesSucceed w)
    (hv1 : ¬ (data = none ∧ dataLength ≠ 0)) (hv2 : ¬ (data ≠ none ∧ dataLength = 0))
    (hv3 : dataLength ≤ AHMaxRequestBody) :
    callApp requestID (some cmd) data dataLength oBody w
      = readReply requestID oBody
          { w with
            outbox := w.outbox ++ (cmd.take 4 ++ int16Bytes requestID
              ++ sizeLow2Bytes dataLength ++ (data.getD []).take dataLength)
            writeScript := w.writeScript.drop 4 } := by
  have hv3n : ¬ dataLength > AHMaxRequestBody := by omega
  obtain ⟨w1, hw1⟩ : ∃ w1 : World, w1 =
      { w with outbox := w.outbox ++ cmd.take 4, writeScript := w.writeScript.tail } :=
    ⟨_, rfl⟩
  obtain ⟨w2, hw2⟩ : ∃ w2 : World, w2 =
      { w1 with outbox := w1.outbox ++ int16Bytes requestID,
                writeScript := w1.writeScript.tail } := ⟨_, rfl⟩
  obtain ⟨w3, hw3⟩ : ∃ w3 : World, w3 =
      { w2 with outbox := w2.outbox ++ sizeLow2Bytes dataLength,
                writeScript := w2.writeScript.tail } := ⟨_, rfl⟩
  obtain ⟨w4, hw4⟩ : ∃ w4 : World, w4 =
      { w3 with outbox := w3.outbox ++ (data.getD []).take dataLength,
                writeScript := w3.writeScript.tail } := ⟨_, rfl⟩
  have l1 : w1.appPipe = true := by rw [hw1]; exact hl
  have l2 : w2.appPipe = true := by rw [hw2]; exact l1
  have l3 : w3.appPipe = true := by rw [hw3]; exact l2
  have s1 : WritesSucceed w1 := by
    intro o ho; rw [hw1] at ho; exact hw o (List.mem_of_mem_tail ho)
  have s2 : WritesSucceed w2 := by
    intro o ho; rw [hw2] at ho; exact s1 o (List.mem_of_mem_tail ho)
  have s3 : WritesSucceed w3 := by
    intro o ho; rw [hw3] at ho; exact s2 o (List.mem_of_mem_tail ho)
  have e1 : writeToApp (cmd.take 4) w = (0, w1) := by
    rw [hw1]
    exact writeToApp_ok _ w hl hw (by simp only [List.length_take, AHMaxRequestBody]; omega)
  have e2 : writeToApp (int16Bytes requestID) w1 = (0, w2) := by
    rw [hw2]; exact writeToApp_ok _ w1 l1 s1 (by simp [int16Bytes, AHMaxRequestBody])
  have e3 : writeToApp (sizeLow2Bytes dataLength) w2 = (0, w3) := by
    rw [hw3]; exact writeToApp_ok _ w2 l2 s2 (by simp [sizeLow2Bytes, AHMaxRequestBody])
  have e4 : writeToApp ((data.getD []).take dataLength) w3 = (0, w4) := by
    rw [hw4]; exact writeToApp_ok _ w3 l3 s3 (by simp only [List.length_take]; omega)
  simp only [callApp, hv1, hv2, hv3n, if_false, e1, e2, e3, e4, ne_eq, not_true_eq_false]
  congr 1
  rw [hw4, hw3, hw2, hw1]
  simp only [List.append_assoc, World.mk.injEq, true_and, and_true]
  cases w.writeScript with
  | nil => rfl
  | cons a l => cases l with
    | nil => rfl
    | cons b l => cases l with
      | nil => rfl
      | cons c l => cases l <;> rfl

/-! ## The reading half of `callApp` -/

/-- Reading the next `pre.length` bytes of a stream that starts with `pre`. -/
theorem readFromApp_prefix (w : World) (hl : w.appPipe = true) (pre rest : List Nat)
    (hs : stream w.inbox = pre ++ rest) :
    ∃ pipe2, stream pipe2 = rest ∧
      readFromApp pre.length w = (0, pre, { w with inbox := pipe2 }) := by
  obtain ⟨pipe2, hp2, heq⟩ := readFromApp_stream pre.length w hl (by rw [hs]; simp)
  refine ⟨pipe2, ?_, ?_⟩
  · rw [hp2, hs]; simp
  · rw [heq, hs]; simp

/-- When allocations succeed, `malloc` yields a buffer. -/
theorem malloc_ok (w : World) (hm : MallocsSucceed w) :
    malloc w = (true, { w with mallocScript := w.mallocScript.tail }) := by
  unfold malloc
  cases hs : w.mallocScript with
  | nil =>
    simp only [Prod.mk.injEq, true_and]
    cases w
    simp_all
  | cons b rest =>
    have : b = true := hm b (by simp [hs])
    simp [this]

/-- A reply header with a foreign identifier: `AHErrorCommsFailure` after
six bytes. -/
theorem readReply_mismatch (requestID : Int) (oBody : Bool) (w : World)
    (tag idb rest : List Nat) (hl : w.appPipe = true)
    (hs : stream w.inbox = tag ++ (idb ++ rest))
    (ht : tag.length = 4) (hi : idb.length = 2) (hid : int16OfBytes idb ≠ requestID) :
    ∃ pipe2, stream pipe2 = rest ∧
      readReply requestID oBody w = (AHErrorCommsFailure, none, { w with inbox := pipe2 }) := by
  obtain ⟨p1, hp1, e1⟩ := readFromApp_prefix w hl tag _ hs
  obtain ⟨p2, hp2, e2⟩ := readFromApp_prefix { w with inbox := p1 } hl idb rest hp1
  rw [ht] at e1
  rw [hi] at e2
  refine ⟨p2, hp2, ?_⟩
  simp only [readReply, e1, e2, ne_eq, not_true_eq_false, if_false, hid, not_false_eq_true,
    if_true]

/-- A reply that arrives in full with the right identifier: the body, when
there is one and the caller asked for it, is stored, and the result is decided
by the status tag. -/
theorem readReply_exchange (requestID : Int) (oBody : Bool) (w : World)
    (tag idb lenb rbody rest : List Nat) (hl : w.appPipe = true) (hm : MallocsSucceed w)
    (hs : stream w.inbox = tag ++ (idb ++ (lenb ++ (rbody ++ rest))))
    (ht : tag.length = 4) (hi : idb.length = 2) (hid : int16OfBytes idb = requestID)
    (hn : lenb.length = 2) (hb : rbody.length = uint16OfBytes lenb) :
    ∃ pipe2, stream pipe2 = rest ∧
      readReply requestID oBody w
        = checkReply tag
            (if oBody = true ∧ rbody ≠ [] then some (rbody, rbody.length) else none)
            { w with
              inbox := pipe2
              mallocScript := if rbody = [] then w.mallocScript else w.mallocScript.tail } := by
  obtain ⟨p1, hp1, e1⟩ := readFromApp_prefix w hl tag _ hs
  obtain ⟨p2, hp2, e2⟩ := readFromApp_prefix { w with inbox := p1 } hl idb _ hp1
  obtain ⟨p3, hp3, e3⟩ := readFromApp_prefix { w with inbox := p2 } hl lenb _ hp2
  rw [ht] at e1
  rw [hi] at e2
  rw [hn] at e3
  by_cases hr : rbody = []
  · subst hr
    have hz : ¬ uint16OfBytes lenb > 0 := by simp at hb; omega
    refine ⟨p3, by simpa using hp3, ?_⟩
    simp only [readReply, e1, e2, e3, ne_eq, not_true_eq_false, if_false, hid, hz]
    simp
  · have hpos : uint16OfBytes lenb > 0 := by
      have : rbody.length ≠ 0 := fun h => hr (List.length_eq_zero.mp h)
      omega
    have em := malloc_ok { w with inbox := p3 } hm
    obtain ⟨p4, hp4, e4⟩ := readFromApp_prefix
      { w with inbox := p3, mallocScript := w.mallocScript.tail } hl rbody rest hp3
    rw [hb] at e4
    refine ⟨p4, hp4, ?_⟩
    simp only [readReply, e1, e2, e3, ne_eq, not_true_eq_false, if_false, hid, hpos, if_true,
      em, e4]
    simp [hr, hb]

/-! ## The dispatcher -/

/-- The status check changes neither the state nor what was stored. -/
theorem checkReply_frame (reply : List Nat) (out : Option (List Nat × Nat)) (w : World) :
    (checkReply reply out w).2.2 = w ∧ (checkReply reply out w).2.1 = out := by
  unfold checkReply; split_ifs <;> simp

/-- Reading the reply writes nothing. -/
theorem readReply_outbox (requestID : Int) (oBody : Bool) (w : World) :
    (readReply requestID oBody w).2.2.outbox = w.outbox := by
  unfold readReply
  simp only []
  split_ifs <;>
    simp only [(checkReply_frame _ _ _).1, readFromApp_outbox, (malloc_frame _).2.2.2.1]

/-- Connecting keeps the script of writes. -/
theorem WritesSucceed_connect (w : World) (h : (initAppConnection w).1 = 0)
    (hw : WritesSucceed w) : WritesSucceed (initAppConnection w).2 := by
  intro o ho
  rw [(initAppConnection_ok w h).2.2.1] at ho
  exact hw o ho

/-- Connecting keeps the script of allocations. -/
theorem MallocsSucceed_connect (w : World) (h : (initAppConnection w).1 = 0)
    (hm : MallocsSucceed w) : MallocsSucceed (initAppConnection w).2 := by
  intro o ho
  rw [(initAppConnection_ok w h).2.2.2.1] at ho
  exact hm o ho

/-! ## The poll loop -/

/-- A length stored through `oBodyLength` is between 1 and 65535. -/
theorem readReply_out_bounds (requestID : Int) (oBody : Bool) (w : World)
    (b : List Nat) (n : Nat) (h : (readReply requestID oBody w).2.1 = some (b, n)) :
    0 < n ∧ n ≤ AHMaxRequestBody := by
  unfold readReply at h
  simp only [] at h
  split_ifs at h <;> simp only [(checkReply_frame _ _ _).2] at h <;> try (simp at h; done)
  simp only [Option.some.injEq, Prod.mk.injEq] at h
  obtain ⟨_, hn⟩ := h
  subst hn
  exact ⟨by assumption, uint16OfBytes_le _⟩

/-- A length stored by `callApp` is between 1 and 65535. -/
theorem callApp_out_bounds (requestID : Int) (command data : Option (List Nat))
    (dataLength : Nat) (oBody : Bool) (w : World) (b : List Nat) (n : Nat)
    (h : (callApp requestID command data dataLength oBody w).2.1 = some (b, n)) :
    0 < n ∧ n ≤ AHMaxRequestBody := by
  unfold callApp at h
  cases command with
  | none => simp at h
  | some cmd =>
    simp only [] at h
    split_ifs at h
    exact readReply_out_bounds _ _ _ _ _ h

/-- One "poll" on a live connection answered in full with identifier 0: the
request is appended to what was written, the body is stored when it is not
empty, and the connection is ready for the next exchange. -/
theorem callApp_poll_reply (w : World) (status body rest : List Nat)
    (hl : w.appPipe = true) (hw : WritesSucceed w) (hm : MallocsSucceed w)
    (hst : status.length = 4) (hb : body.length ≤ AHMaxRequestBody)
    (hs : stream w.inbox = replyFrame status 0 body ++ rest) :
    ∃ w2, callApp 0 (some cmdPoll) none 0 true w
        = checkReply status (if body = [] then none else some (body, body.length)) w2 ∧
      w2.appPipe = true ∧ WritesSucceed w2 ∧ MallocsSucceed w2 ∧ stream w2.inbox = rest ∧
      w2.outbox = w.outbox ++ requestFrame cmdPoll 0 [] := by
  rw [callApp_writes 0 cmdPoll none 0 true w hl hw (by simp) (by simp) (by simp)]
  obtain ⟨pipe2, hp2, heq⟩ := readReply_exchange 0 true
    { w with
      outbox := w.outbox ++ (cmdPoll.take 4 ++ int16Bytes 0
        ++ sizeLow2Bytes 0 ++ ((none : Option (List Nat)).getD []).take 0)
      writeScript := w.writeScript.drop 4 }
    status (le16 (twosComplement16 0)) (le16 body.length) body rest hl hm
    (by simpa [replyFrame, List.append_assoc] using hs) hst (by simp [le16])
    (int16OfBytes_le16 0 (by omega) (by omega)) (by simp [le16])
    (uint16OfBytes_le16 _ hb).symm
  refine ⟨{ w with
      outbox := w.outbox ++ (cmdPoll.take 4 ++ int16Bytes 0
        ++ sizeLow2Bytes 0 ++ ((none : Option (List Nat)).getD []).take 0)
      inbox := pipe2
      writeScript := w.writeScript.drop 4
      mallocScript := if body = [] then w.mallocScript else w.mallocScript.tail }, ?_, ?_⟩
  · rw [heq]
    by_cases hbody : body = [] <;> simp [hbody]
  · refine ⟨hl, ?_, ?_, hp2, ?_⟩
    · intro o ho
      exact hw o (List.mem_of_mem_drop ho)
    · intro x hx
      simp only [] at hx
      split_ifs at hx
      · exact hm x hx
      · exact hm x (List.mem_of_mem_tail hx)
    · have e : (cmdPoll.take 4 ++ int16Bytes 0 ++ sizeLow2Bytes 0
          ++ ((none : Option (List Nat)).getD []).take 0) = requestFrame cmdPoll 0 [] := by
        decide
      simp only [e]

/-- Whenever a "poll" is answered in full with a status other than "okay"
and a non-empty body, `callApp` returns `AHRequestFailed` and has stored the
body through `oBody`. -/
theorem callApp_poll_failed_status (w : World) (status body rest : List Nat)
    (hl : w.appPipe = true) (hw : WritesSucceed w) (hm : MallocsSucceed w)
    (hst : status.length = 4) (hne : status ≠ AOK)
    (hb : body.length ≤ AHMaxRequestBody) (hbody : body ≠ [])
    (hs : stream w.inbox = replyFrame status 0 body ++ rest) :
    (callApp 0 (some cmdPoll) none 0 true w).1 = AHRequestFailed ∧
    (callApp 0 (some cmdPoll) none 0 true w).2.1 = some (body, body.length) := by
  obtain ⟨w2, heq, _⟩ := callApp_poll_reply w status body rest hl hw hm hst hb hs
  rw [heq]
  simp [checkReply, hne, hbody]

/-- A poll loop that has to connect first behaves as the loop after
connecting. -/
theorem pollLoop_connect (fuel : Nat) (w : World) (calls : List (List Nat × Nat))
    (h : (initAppConnection w).1 = 0) :
    pollLoop fuel w calls = pollLoop fuel (initAppConnection w).2 calls := by
  cases fuel with
  | zero => rfl
  | succ f =>
    rw [pollLoop, pollLoop,
      callApp_connect 0 cmdPoll none 0 true w h (by simp) (by simp) (by simp)]

/-- The poll loop on a companion with `bodies` pending, for any handler log
`calls` so far. -/
theorem pollLoop_drains : ∀ (bodies : List (List Nat)) (w : World)
    (calls : List (List Nat × Nat)) (rest : List Nat) (fuel : Nat),
    w.appPipe = true → WritesSucceed w → MallocsSucceed w →
    (∀ b ∈ bodies, b ≠ [] ∧ b.length ≤ AHMaxRequestBody) →
    stream w.inbox
      = (bodies.map (replyFrame AOK 0)).flatten ++ (replyFrame AOK 0 [] ++ rest) →
    bodies.length < fuel →
    ∃ w2, pollLoop fuel w calls
        = some (0, calls ++ bodies.map (fun b => (b, b.length)), w2) ∧
      w2.outbox = w.outbox
        ++ (List.replicate (bodies.length + 1) (requestFrame cmdPoll 0 [])).flatten ∧
      stream w2.inbox = rest := by
  intro bodies
  induction bodies with
  | nil =>
    intro w calls rest fuel hl hw hm _ hs hfuel
    obtain ⟨f, rfl⟩ : ∃ f, fuel = f + 1 := ⟨fuel - 1, by omega⟩
    obtain ⟨w2, heq, _, _, _, hst, hout⟩ :=
      callApp_poll_reply w AOK [] rest hl hw hm (by decide) (by simp) (by simpa using hs)
    refine ⟨w2, ?_, by simpa using hout, hst⟩
    rw [pollLoop, heq]
    simp [checkReply]
  | cons b bs ih =>
    intro w calls rest fuel hl hw hm hb hs hfuel
    obtain ⟨f, rfl⟩ : ∃ f, fuel = f + 1 := ⟨fuel - 1, by omega⟩
    obtain ⟨hbne, hblen⟩ := hb b (by simp)
    obtain ⟨w2, heq, hl2, hw2, hm2, hst, hout⟩ :=
      callApp_poll_reply w AOK b
        ((bs.map (replyFrame AOK 0)).flatten ++ (replyFrame AOK 0 [] ++ rest))
        hl hw hm (by decide) hblen (by simpa [List.append_assoc] using hs)
    obtain ⟨w3, heq3, hout3, hst3⟩ := ih w2 (calls ++ [(b, b.length)]) rest f hl2 hw2 hm2
      (fun x hx => hb x (by simp [hx])) hst (by simp at hfuel; omega)
    refine ⟨w3, ?_, ?_, hst3⟩
    · rw [pollLoop, heq]
      have hpos : b.length ≠ 0 := fun hz => hbne (List.length_eq_zero.mp hz)
      have hmod : b.length % 65536 = b.length := by
        simp only [AHMaxRequestBody] at hblen; omega
      have hgt : ¬ b.length > AHMaxRequestBody := by omega
      simp only [checkReply, hbne, if_false, ne_eq, not_true_eq_false, Option.map_some',
        Option.getD_some, hgt, hpos, not_false_eq_true, if_true, hmod]
      rw [heq3]
      simp
    · rw [hout3, hout]
      simp [List.replicate_succ, List.append_assoc]

/-- The poll loop when the request after `rs.length` deliveries fails, for
any handler log `calls` so far. -/
theorem pollLoop_error : ∀ (rs : List (List Nat × Nat)) (w w1 w2 : World)
    (calls : List (List Nat × Nat)) (e : Int) (out : Option (List Nat × Nat)) (fuel : Nat),
    PollsDeliver w rs w1 →
    callApp 0 (some cmdPoll) none 0 true w1 = (e, out, w2) → e ≠ 0 →
    rs.length < fuel →
    pollLoop fuel w calls = some (e, calls ++ rs, w2) := by
  intro rs
  induction rs with
  | nil =>
    intro w w1 w2 calls e out fuel hd hfail he hfuel
    obtain ⟨f, rfl⟩ : ∃ f, fuel = f + 1 := ⟨fuel - 1, by omega⟩
    simp only [PollsDeliver] at hd
    subst hd
    rw [pollLoop, hfail]
    simp [he]
  | cons r rs ih =>
    intro w w1 w2 calls e out fuel hd hfail he hfuel
    obtain ⟨f, rfl⟩ : ∃ f, fuel = f + 1 := ⟨fuel - 1, by omega⟩
    obtain ⟨b, n⟩ := r
    simp only [PollsDeliver] at hd
    obtain ⟨w3, hstep, hrest⟩ := hd
    obtain ⟨hpos, hle⟩ := callApp_out_bounds 0 (some cmdPoll) none 0 true w b n (by rw [hstep])
    have hmod : n % 65536 = n := by simp only [AHMaxRequestBody] at hle; omega
    have hgt : ¬ n > AHMaxRequestBody := by omega
    have hne : n ≠ 0 := by omega
    rw [pollLoop, hstep]
    simp only [Option.map_some', Option.getD_some, hgt, hne, if_false, ne_eq,
      not_false_eq_true, if_true, hmod]
    rw [ih w3 w1 w2 (calls ++ [(b, n)]) e out f hrest hfail he (by simp at hfuel; omega)]
    simp

/-! ## What a call leaves of the connection -/

/-- Reading the reply on a live connection launches nothing, and when it
returns 0 the connection is still live and `pclose` has not run. -/
theorem readReply_frame (requestID : Int) (oBody : Bool) (w : World) (h : w.appPipe = true) :
    (readReply requestID oBody w).2.2.launches = w.launches ∧
    ((readReply requestID oBody w).1 = 0 →
      (readReply requestID oBody w).2.2.appPipe = true ∧
      (readReply requestID oBody w).2.2.closes = w.closes) := by
  have f1 := readFromApp_frame 4 w h
  unfold readReply
  simp only []
  by_cases c1 : (readFromApp 4 w).1 = 0
  swap
  · rw [if_pos c1]
    exact ⟨f1.1, fun hc => absurd hc c1⟩
  rw [if_neg (not_not.mpr c1)]
  obtain ⟨l1, k1⟩ := f1.2.2.2.2 c1
  have f2 := readFromApp_frame 2 _ l1
  by_cases c2 : (readFromApp 2 (readFromApp 4 w).2.2).1 = 0
  swap
  · rw [if_pos c2]
    exact ⟨f2.1.trans f1.1, fun hc => absurd hc c2⟩
  rw [if_neg (not_not.mpr c2)]
  obtain ⟨l2, k2⟩ := f2.2.2.2.2 c2
  by_cases c3 : int16OfBytes (readFromApp 2 (readFromApp 4 w).2.2).2.1 ≠ requestID
  · rw [if_pos c3]
    exact ⟨f2.1.trans f1.1, fun hc => by simp at hc⟩
  rw [if_neg c3]
  have f3 := readFromApp_frame 2 _ l2
  by_cases c4 : (readFromApp 2 (readFromApp 2 (readFromApp 4 w).2.2).2.2).1 = 0
  swap
  · rw [if_pos c4]
    exact ⟨f3.1.trans (f2.1.trans f1.1), fun hc => absurd hc c4⟩
  rw [if_neg (not_not.mpr c4)]
  obtain ⟨l3, k3⟩ := f3.2.2.2.2 c4
  have h3 := f3.1.trans (f2.1.trans f1.1)
  by_cases c5 : uint16OfBytes (readFromApp 2 (readFromApp 2 (readFromApp 4 w).2.2).2.2).2.1 > 0
  swap
  · rw [if_neg c5, (checkReply_frame _ _ _).1]
    exact ⟨h3, fun _ => ⟨l3, k3.trans (k2.trans k1)⟩⟩
  rw [if_pos c5]
  have lm : (malloc (readFromApp 2 (readFromApp 2 (readFromApp 4 w).2.2).2.2).2.2).2.appPipe
      = true := by rw [(malloc_frame _).2.1]; exact l3
  by_cases c6 : (malloc (readFromApp 2 (readFromApp 2 (readFromApp 4 w).2.2).2.2).2.2).1 = false
  · rw [if_pos c6]
    refine ⟨?_, fun hc => by simp at hc⟩
    rw [(malloc_frame _).1]
    exact h3
  rw [if_neg c6]
  have f4 := readFromApp_frame
    (uint16OfBytes (readFromApp 2 (readFromApp 2 (readFromApp 4 w).2.2).2.2).2.1) _ lm
  have h4 := f4.1.trans (((malloc_frame _).1).trans h3)
  by_cases c7 : (readFromApp
      (uint16OfBytes (readFromApp 2 (readFromApp 2 (readFromApp 4 w).2.2).2.2).2.1)
      (malloc (readFromApp 2 (readFromApp 2 (readFromApp 4 w).2.2).2.2).2.2).2).1 = 0
  swap
  · rw [if_pos c7]
    exact ⟨h4, fun hc => absurd hc c7⟩
  rw [if_neg (not_not.mpr c7), (checkReply_frame _ _ _).1]
  obtain ⟨l4, k4⟩ := f4.2.2.2.2 c7
  refine ⟨h4, fun _ => ⟨l4, ?_⟩⟩
  rw [k4, (malloc_frame _).2.2.1, k3, k2, k1]

/-- A call on a live connection launches nothing, and when it returns 0 the
connection is still live and `pclose` has not run. -/
theorem callApp_frame (requestID : Int) (command data : Option (List Nat)) (dataLength : Nat)
    (oBody : Bool) (w : World) (h : w.appPipe = true) :
    (callApp requestID command data dataLength oBody w).2.2.launches = w.launches ∧
    ((callApp requestID command data dataLength oBody w).1 = 0 →
      (callApp requestID command data dataLength oBody w).2.2.appPipe = true ∧
      (callApp requestID command data dataLength oBody w).2.2.closes = w.closes) := by
  unfold callApp
  cases command with
  | none => exact ⟨rfl, fun hc => by simp at hc⟩
  | some cmd =>
    simp only []
    have g1 := writeToApp_frame (cmd.take 4) w h
    have g2 := writeToApp_frame (int16Bytes requestID) _ g1.2.1
    have g3 := writeToApp_frame (sizeLow2Bytes dataLength) _ g2.2.1
    have g4 := writeToApp_frame ((data.getD []).take dataLength) _ g3.2.1
    have fr := readReply_frame requestID oBody _ g4.2.1
    split_ifs with c1 c2 c3 c4 c5 c6 c7
    · exact ⟨rfl, fun hc => by simp at hc⟩
    · exact ⟨rfl, fun hc => by simp at hc⟩
    · exact ⟨rfl, fun hc => by simp at hc⟩
    · exact ⟨g1.1, fun hc => absurd hc c4⟩
    · exact ⟨g2.1.trans g1.1, fun hc => absurd hc c5⟩
    · exact ⟨g3.1.trans (g2.1.trans g1.1), fun hc => absurd hc c6⟩
    · exact ⟨g4.1.trans (g3.1.trans (g2.1.trans g1.1)), fun hc => absurd hc c7⟩
    · refine ⟨fr.1.trans (g4.1.trans (g3.1.trans (g2.1.trans g1.1))), fun hc => ?_⟩
      obtain ⟨l, k⟩ := fr.2 hc
      exact ⟨l, k.trans (g4.2.2.1.trans (g3.2.2.1.trans (g2.2.2.1.trans g1.2.2.1)))⟩

/-! ## The public entry points -/

/-- Whenever `AHclose` returns 0 on a live connection, the handle is still
set, `pclose` has not run, and no later `AHdrop` launches a companion. -/
theorem AHclose_success_keeps_connection (w : World) (hl : w.appPipe = true)
    (h0 : (AHclose w).1 = 0) :
    (AHclose w).2.appPipe = true ∧ (AHclose w).2.closes = w.closes ∧
    (AHclose w).2.launches = w.launches ∧
    ∀ (dropData : Option (List Nat)) (dropDataLength : Nat) (requestID : Int),
      (AHdrop dropData dropDataLength requestID (AHclose w).2).2.launches = w.launches := by
  have f := callApp_frame 0 (some cmdQuit) none 0 false w hl
  have hlive := f.2 h0
  refine ⟨hlive.1, hlive.2, f.1, ?_⟩
  intro d n i
  unfold AHdrop
  split_ifs
  · exact f.1
  · exact (callApp_frame i (some cmdDrop) d n false _ hlive.1).1.trans f.1

/-- A read that finds no data and whose wait times out returns
`AHErrorCommsFailure` and leaves the connection as it was. -/
theorem readFromApp_timeout (n : Nat) (w : World) (rest : List PipeEvent)
    (hl : w.appPipe = true) (hn : 0 < n)
    (hin : w.inbox = PipeEvent.wouldBlock PollOutcome.timeout :: rest) :
    readFromApp n w = (AHErrorCommsFailure, [], { w with inbox := rest }) := by
  have h0 : ¬ n - 0 = 0 := by omega
  simp only [readFromApp, initAppConnection_live w hl, ne_eq, not_true_eq_false, if_false, hin]
  rw [readLoop.eq_def]
  have hn0 : n ≠ 0 := by omega
  simp [hn0, waitForData]

/-- A timeout on the first read of the reply ends the call with
`AHErrorCommsFailure`. -/
theorem readReply_timeout (requestID : Int) (oBody : Bool) (w : World) (rest : List PipeEvent)
    (hl : w.appPipe = true)
    (hin : w.inbox = PipeEvent.wouldBlock PollOutcome.timeout :: rest) :
    readReply requestID oBody w = (AHErrorCommsFailure, none, { w with inbox := rest }) := by
  unfold readReply
  rw [readFromApp_timeout 4 w rest hl (by omega) hin]
  rfl

/-- An `AHdrop` on a live connection launches nothing. -/
theorem AHdrop_launches (dropData : Option (List Nat)) (dropDataLength : Nat)
    (requestID : Int) (w : World) (hl : w.appPipe = true) :
    (AHdrop dropData dropDataLength requestID w).2.launches = w.launches := by
  unfold AHdrop
  split_ifs
  · rfl
  · exact (callApp_frame requestID (some cmdDrop) dropData dropDataLength false w hl).1

/-! ## Replies that stop short, and allocation -/

/-- A read that succeeds returns the next bytes of the stream, leaves the
following ones, and leaves a stalling pipe stalling. -/
theorem readLoop_stream_stalls (length : Nat) (w : World) :
    ∀ (pipe : List PipeEvent) (total : Nat) (buf : List Nat),
      length - total ≤ (stream pipe).length →
      ∃ pipe2, stream pipe2 = (stream pipe).drop (length - total) ∧
        stalls pipe2 = stalls pipe ∧
        readLoop length w pipe total buf
          = (0, buf ++ (stream pipe).take (length - total), { w with inbox := pipe2 }) := by
  intro pipe
  induction pipe with
  | nil =>
    intro total buf h
    simp [stream] at h
    refine ⟨[], ?_⟩
    rw [readLoop.eq_def]; simp [stream, h]
  | cons ev rest ih =>
    intro total buf h
    by_cases h0 : length - total = 0
    · refine ⟨ev :: rest, ?_⟩
      rw [readLoop.eq_def]
      simp [h0]
    · cases ev with
      | data bs =>
        by_cases hbs : bs = []
        · simp [stream, hbs] at h; omega
        · simp only [stream, stalls, hbs, if_false] at h ⊢
          rw [readLoop.eq_def]
          simp only [h0, if_false]
          by_cases hlt : bs.length < length - total
          · have hne : bs.length ≠ 0 := by
              intro hz; exact hbs (List.length_eq_zero.mp hz)
            have htake : bs.take (length - total) = bs := List.take_of_length_le (by omega)
            simp only [htake]
            have h1 : bs.length ≠ length - total := by omega
            simp only [h1, hne, ne_eq, not_false_eq_true, if_true, if_false]
            have hle : length - (total + bs.length) ≤ (stream rest).length := by
              simp at h; omega
            obtain ⟨pipe2, hp2, hs2, heq⟩ := ih (total + bs.length) (buf ++ bs) hle
            refine ⟨pipe2, ?_, hs2, ?_⟩
            · rw [hp2, List.drop_append_eq_append_drop]
              have : bs.drop (length - total) = [] := List.drop_of_length_le (by omega)
              simp [this]; congr 1; omega
            · rw [heq, List.take_append_eq_append_take, htake]
              simp; congr 1; omega
          · have hlen : (bs.take (length - total)).length = length - total := by
              simp; omega
            simp only [hlen, ne_eq, not_true_eq_false, if_false]
            refine ⟨if bs.drop (length - total) = [] then rest
                else PipeEvent.data (bs.drop (length - total)) :: rest, ?_, ?_, ?_⟩
            · rw [List.drop_append_eq_append_drop]
              have hz : length - total - bs.length = 0 := by omega
              by_cases hd : bs.drop (length - total) = []
              · simp [hd, hz]
              · simp [hd, hz, stream]
            · by_cases hd : bs.drop (length - total) = []
              · simp [hd]
              · simp [hd, stalls]
            · rw [List.take_append_eq_append_take]
              have hz : length - total - bs.length = 0 := by omega
              simp [hz]
      | eof => simp [stream] at h; omega
      | wouldBlock p =>
        cases p with
        | ready =>
          simp only [stream, stalls] at h ⊢
          rw [readLoop.eq_def]
          simp only [h0, if_false, waitForData]
          obtain ⟨pipe2, hp2, hs2, heq⟩ := ih total buf h
          exact ⟨pipe2, hp2, hs2, by simpa using heq⟩
        | timeout => simp [stream] at h; omega
        | failure => simp [stream] at h; omega
      | fails e => simp [stream] at h; omega

/-- A read that asks for more than a stalling pipe delivers returns
`AHErrorCommsFailure` and changes nothing but the pipe. -/
theorem readLoop_stall (length : Nat) (w : World) :
    ∀ (pipe : List PipeEvent) (total : Nat) (buf : List Nat),
      stalls pipe = true → (stream pipe).length < length - total →
      ∃ pipe3, readLoop length w pipe total buf
          = (AHErrorCommsFailure, buf ++ stream pipe, { w with inbox := pipe3 }) := by
  intro pipe
  induction pipe with
  | nil =>
    intro total buf _ h
    have h0 : ¬ length - total = 0 := by simp [stream] at h; omega
    refine ⟨[], ?_⟩
    rw [readLoop.eq_def]
    simp [h0, waitForData, stream]
  | cons ev rest ih =>
    intro total buf hst h
    have h0 : ¬ length - total = 0 := by omega
    cases ev with
    | data bs =>
      by_cases hbs : bs = []
      · simp [stalls, hbs] at hst
      · simp only [stream, stalls, hbs, if_false] at h hst ⊢
        have hlt : bs.length < length - total := by simp at h; omega
        have hne : bs.length ≠ 0 := by
          intro hz; exact hbs (List.length_eq_zero.mp hz)
        have htake : bs.take (length - total) = bs := List.take_of_length_le (by omega)
        have h1 : bs.length ≠ length - total := by omega
        obtain ⟨pipe3, heq⟩ := ih (total + bs.length) (buf ++ bs) hst (by simp at h; omega)
        refine ⟨pipe3, ?_⟩
        rw [readLoop.eq_def]
        simp only [h0, if_false, htake, h1, hne, ne_eq, not_false_eq_true, if_true]
        rw [heq]
        simp
    | eof => simp [stalls] at hst
    | wouldBlock p =>
      cases p with
      | ready =>
        simp only [stream, stalls] at h hst ⊢
        obtain ⟨pipe3, heq⟩ := ih total buf hst h
        refine ⟨pipe3, ?_⟩
        rw [readLoop.eq_def]
        simp only [h0, if_false, waitForData]
        simpa using heq
      | timeout =>
        refine ⟨rest, ?_⟩
        rw [readLoop.eq_def]
        simp [h0, waitForData, stream]
      | failure => simp [stalls] at hst
    | fails e => simp [stalls] at hst

/-- The successful read on a live connection, with what it leaves of a
stalling pipe. -/
theorem readFromApp_stream_stalls (n : Nat) (w : World) (hl : w.appPipe = true)
    (h : n ≤ (stream w.inbox).length) :
    ∃ pipe2, stream pipe2 = (stream w.inbox).drop n ∧ stalls pipe2 = stalls w.inbox ∧
      readFromApp n w = (0, (stream w.inbox).take n, { w with inbox := pipe2 }) := by
  obtain ⟨pipe2, hp2, hs2, heq⟩ := readLoop_stream_stalls n w w.inbox 0 [] (by simpa using h)
  refine ⟨pipe2, by simpa using hp2, hs2, ?_⟩
  simp only [readFromApp, initAppConnection_live w hl, ne_eq, not_true_eq_false, if_false]
  simpa using heq

/-- On a live connection, a read that asks for more than a stalling pipe
delivers times out: `AHErrorCommsFailure`, the connection untouched. -/
theorem readFromApp_stall (n : Nat) (w : World) (hl : w.appPipe = true)
    (hst : stalls w.inbox = true) (h : (stream w.inbox).length < n) :
    ∃ pipe3, readFromApp n w
        = (AHErrorCommsFailure, stream w.inbox, { w with inbox := pipe3 }) := by
  obtain ⟨pipe3, heq⟩ := readLoop_stall n w w.inbox 0 [] hst (by simpa using h)
  refine ⟨pipe3, ?_⟩
  simp only [readFromApp, initAppConnection_live w hl, ne_eq, not_true_eq_false, if_false]
  simpa using heq

/-- When the next scripted allocation is not a failure, `malloc` yields a
buffer. -/
theorem malloc_head_ok (w : World) (h : w.mallocScript.head? ≠ some false) :
    malloc w = (true, { w with mallocScript := w.mallocScript.tail }) := by
  unfold malloc
  cases hs : w.mallocScript with
  | nil =>
    simp only [Prod.mk.injEq, true_and]
    cases w
    simp_all
  | cons b rest =>
    have : b = true := by
      cases b
      · simp [hs] at h
      · rfl
    simp [this]

/-- When the next scripted allocation is a failure, `malloc` yields none. -/
theorem malloc_head_fail (w : World) (h : w.mallocScript.head? = some false) :
    malloc w = (false, { w with mallocScript := w.mallocScript.tail }) := by
  unfold malloc
  cases hs : w.mallocScript with
  | nil => simp [hs] at h
  | cons b rest =>
    have : b = false := by simpa [hs] using h
    simp [this]

/-- A reply that arrives in full with the right identifier, the buffer for
a non-empty body being allocated: the result is decided by the status tag. -/
theorem readReply_exchange_alloc (requestID : Int) (oBody : Bool) (w : World)
    (tag idb lenb rbody rest : List Nat) (hl : w.appPipe = true)
    (hm : rbody ≠ [] → w.mallocScript.head? ≠ some false)
    (hs : stream w.inbox = tag ++ (idb ++ (lenb ++ (rbody ++ rest))))
    (ht : tag.length = 4) (hi : idb.length = 2) (hid : int16OfBytes idb = requestID)
    (hn : lenb.length = 2) (hb : rbody.length = uint16OfBytes lenb) :
    ∃ w2, readReply requestID oBody w
        = checkReply tag
            (if oBody = true ∧ rbody ≠ [] then some (rbody, rbody.length) else none) w2 := by
  obtain ⟨p1, hp1, e1⟩ := readFromApp_prefix w hl tag _ hs
  obtain ⟨p2, hp2, e2⟩ := readFromApp_prefix { w with inbox := p1 } hl idb _ hp1
  obtain ⟨p3, hp3, e3⟩ := readFromApp_prefix { w with inbox := p2 } hl lenb _ hp2
  rw [ht] at e1
  rw [hi] at e2
  rw [hn] at e3
  by_cases hr : rbody = []
  · subst hr
    have hz : ¬ uint16OfBytes lenb > 0 := by simp at hb; omega
    refine ⟨{ w with inbox := p3 }, ?_⟩
    simp only [readReply, e1, e2, e3, ne_eq, not_true_eq_false, if_false, hid, hz]
    simp
  · have hpos : uint16OfBytes lenb > 0 := by
      have : rbody.length ≠ 0 := fun h => hr (List.length_eq_zero.mp h)
      omega
    have em := malloc_head_ok { w with inbox := p3 } (hm hr)
    obtain ⟨p4, hp4, e4⟩ := readFromApp_prefix
      { w with inbox := p3, mallocScript := w.mallocScript.tail } hl rbody rest hp3
    rw [hb] at e4
    refine ⟨{ w with inbox := p4, mallocScript := w.mallocScript.tail }, ?_⟩
    simp only [readReply, e1, e2, e3, ne_eq, not_true_eq_false, if_false, hid, hpos, if_true,
      em, e4]
    simp [hr, hb]

/-- A reply with a non-empty body whose buffer cannot be allocated:
`AHErrorOutOfMemory`, whatever the status tag. -/
theorem readReply_alloc_failure (requestID : Int) (oBody : Bool) (w : World)
    (tag idb lenb rbody rest : List Nat) (hl : w.appPipe = true)
    (hr : rbody ≠ []) (hm : w.mallocScript.head? = some false)
    (hs : stream w.inbox = tag ++ (idb ++ (lenb ++ (rbody ++ rest))))
    (ht : tag.length = 4) (hi : idb.length = 2) (hid : int16OfBytes idb = requestID)
    (hn : lenb.length = 2) (hb : rbody.length = uint16OfBytes lenb) :
    (readReply requestID oBody w).1 = AHErrorOutOfMemory ∧
    (readReply requestID oBody w).2.1 = none := by
  obtain ⟨p1, hp1, e1⟩ := readFromApp_prefix w hl tag _ hs
  obtain ⟨p2, hp2, e2⟩ := readFromApp_prefix { w with inbox := p1 } hl idb _ hp1
  obtain ⟨p3, hp3, e3⟩ := readFromApp_prefix { w with inbox := p2 } hl lenb _ hp2
  rw [ht] at e1
  rw [hi] at e2
  rw [hn] at e3
  have hpos : uint16OfBytes lenb > 0 := by
    have : rbody.length ≠ 0 := fun h => hr (List.length_eq_zero.mp h)
    omega
  have em := malloc_head_fail { w with inbox := p3 } hm
  simp only [readReply, e1, e2, e3, ne_eq, not_true_eq_false, if_false, hid, hpos, if_true,
    em]
  simp

/-- A reply that stops short on a stalling pipe: whichever read runs out of
data times out, the call ends with `AHErrorCommsFailure`, and only the pipe
and the script of allocations have changed. -/
theorem readReply_stall (requestID : Int) (oBody : Bool) (w : World)
    (hl : w.appPipe = true) (hst : stalls w.inbox = true)
    (hinc : ReplyIncomplete requestID (stream w.inbox))
    (hm : 8 ≤ (stream w.inbox).length → w.mallocScript.head? ≠ some false) :
    ∃ pipe3 ms, readReply requestID oBody w
        = (AHErrorCommsFailure, none, { w with inbox := pipe3, mallocScript := ms }) := by
  by_cases c4 : (stream w.inbox).length < 4
  · obtain ⟨p, e⟩ := readFromApp_stall 4 w hl hst c4
    refine ⟨p, w.mallocScript, ?_⟩
    unfold readReply
    rw [e]
    rfl
  obtain ⟨p1, hp1, hs1, e1⟩ := readFromApp_stream_stalls 4 w hl (by omega)
  rw [hst] at hs1
  by_cases c6 : (stream w.inbox).length < 6
  · obtain ⟨p, e⟩ := readFromApp_stall 2 { w with inbox := p1 } hl hs1
      (by simp only [hp1, List.length_drop]; omega)
    refine ⟨p, w.mallocScript, ?_⟩
    unfold readReply
    simp only [e1, e, ne_eq, not_true_eq_false, if_false]
    rfl
  obtain ⟨p2, hp2, hs2, e2⟩ := readFromApp_stream_stalls 2 { w with inbox := p1 } hl
    (by simp only [hp1, List.length_drop]; omega)
  simp only [hp1, List.drop_drop] at hp2 e2
  rw [hs1] at hs2
  obtain ⟨hid, hlen⟩ : int16OfBytes ((stream w.inbox).drop 4 |>.take 2) = requestID ∧
      ((stream w.inbox).length < 8 ∨
        (stream w.inbox).length < 8 + uint16OfBytes (((stream w.inbox).drop 6).take 2)) := by
    rcases hinc with h | h
    · omega
    · exact h
  by_cases c8 : (stream w.inbox).length < 8
  · obtain ⟨p, e⟩ := readFromApp_stall 2 { w with inbox := p2 } hl hs2
      (by simp only [hp2, List.length_drop]; omega)
    refine ⟨p, w.mallocScript, ?_⟩
    unfold readReply
    simp only [e1, e2, e, hid, ne_eq, not_true_eq_false, if_false]
    rfl
  obtain ⟨p3, hp3, hs3, e3⟩ := readFromApp_stream_stalls 2 { w with inbox := p2 } hl
    (by simp only [hp2, List.length_drop]; omega)
  simp only [hp2, List.drop_drop] at hp3 e3
  rw [hs2] at hs3
  have hL : (stream w.inbox).length
      < 8 + uint16OfBytes (((stream w.inbox).drop 6).take 2) := by
    rcases hlen with h | h
    · omega
    · exact h
  have hpos : uint16OfBytes (((stream w.inbox).drop 6).take 2) > 0 := by omega
  have em := malloc_head_ok { w with inbox := p3 } (hm (by omega))
  obtain ⟨p, e⟩ := readFromApp_stall (uint16OfBytes (((stream w.inbox).drop 6).take 2))
    { w with inbox := p3, mallocScript := w.mallocScript.tail } hl hs3
    (by simp only [hp3, List.length_drop]; omega)
  refine ⟨p, w.mallocScript.tail, ?_⟩
  unfold readReply
  simp only [e1, e2, e3, hid, hpos, em, e, ne_eq, not_true_eq_false, if_false, if_true]
  rfl

/-! ## The claims -/

/-- Claim C1.  A request that passes validation (a 4-byte command, a 16-bit
signed identifier, a body of `dataLength` ≤ 65535 bytes held in a buffer at
least that long, or no buffer and length 0), sent over a connection that can
be established and whose writes all succeed, puts exactly these bytes into the
pipe, after what was there, whatever the companion then replies: the 4
command bytes, the identifier as two bytes least significant first in two's
complement, the body length as two bytes least significant first, and the
body bytes. -/
theorem callApp_writes_request_frame (w : World) (requestID : Int) (command : List Nat)
    (data : Option (List Nat)) (dataLength : Nat) (oBody : Bool)
    (hconn : (initAppConnection w).1 = 0) (hw : WritesSucceed w)
    (hcmd : command.length = 4) (hlo : -32768 ≤ requestID) (hhi : requestID ≤ 32767)
    (hv1 : ¬ (data = none ∧ dataLength ≠ 0)) (hv2 : ¬ (data ≠ none ∧ dataLength = 0))
    (hv3 : dataLength ≤ AHMaxRequestBody)
    (hbuf : ∀ buf, data = some buf → dataLength ≤ buf.length) :
    (callApp requestID (some command) data dataLength oBody w).2.2.outbox
      = w.outbox ++ requestFrame command requestID ((data.getD []).take dataLength) := by
  have hlen : ((data.getD []).take dataLength).length = dataLength := by
    cases data with
    | none =>
      have : dataLength = 0 := by
        by_contra hne; exact hv1 ⟨rfl, hne⟩
      simp [this]
    | some buf => simpa using hbuf buf rfl
  rw [callApp_connect requestID command _ _ oBody w hconn hv1 hv2 hv3,
    callApp_writes requestID command _ _ oBody _ (initAppConnection_ok w hconn).1
      (WritesSucceed_connect w hconn hw) hv1 hv2 hv3,
    readReply_outbox]
  simp only [initAppConnection_outbox, requestFrame, hlen,
    int16Bytes_eq requestID hlo hhi, sizeLow2Bytes_eq _ hv3,
    List.take_of_length_le (le_of_eq hcmd)]

theorem callApp_writes_request_frame_witness :
    (callApp (-2) (some cmdDrop) (some [123, 125]) 2 false (freshWorld [])).2.2.outbox
      = [100, 114, 111, 112, 254, 255, 2, 0, 123, 125] :=
  callApp_writes_request_frame (freshWorld []) (-2) cmdDrop (some [123, 125]) 2 false
    (by decide) (by decide) (by decide) (by decide) (by decide) (by decide) (by decide)
    (by decide) (by intro buf h; cases h; decide)

/-- Claim C2.  When a valid request has gone out (the connection can be
established and the writes succeed) and the reply header arrives with an
echoed identifier different from the request's, `callApp` returns
`AHErrorCommsFailure`, stores nothing through `oBody`, and has read the six
bytes of status and identifier only: everything after them, the length field
and the body included, is still in the pipe. -/
theorem callApp_requestID_mismatch (w : World) (requestID : Int) (command : List Nat)
    (data : Option (List Nat)) (dataLength : Nat) (oBody : Bool) (tag idb rest : List Nat)
    (hconn : (initAppConnection w).1 = 0) (hw : WritesSucceed w)
    (hv1 : ¬ (data = none ∧ dataLength ≠ 0)) (hv2 : ¬ (data ≠ none ∧ dataLength = 0))
    (hv3 : dataLength ≤ AHMaxRequestBody)
    (hs : stream (initAppConnection w).2.inbox = tag ++ (idb ++ rest))
    (ht : tag.length = 4) (hi : idb.length = 2) (hid : int16OfBytes idb ≠ requestID) :
    (callApp requestID (some command) data dataLength oBody w).1 = AHErrorCommsFailure ∧
    (callApp requestID (some command) data dataLength oBody w).2.1 = none ∧
    stream (callApp requestID (some command) data dataLength oBody w).2.2.inbox = rest := by
  rw [callApp_connect requestID command _ _ oBody w hconn hv1 hv2 hv3,
    callApp_writes requestID command _ _ oBody _ (initAppConnection_ok w hconn).1
      (WritesSucceed_connect w hconn hw) hv1 hv2 hv3]
  obtain ⟨pipe2, hp2, heq⟩ := readReply_mismatch requestID oBody
    { (initAppConnection w).2 with
      outbox := (initAppConnection w).2.outbox ++ (command.take 4 ++ int16Bytes requestID
        ++ sizeLow2Bytes dataLength ++ (data.getD []).take dataLength)
      writeScript := (initAppConnection w).2.writeScript.drop 4 }
    tag idb rest (initAppConnection_ok w hconn).1 hs ht hi hid
  rw [heq]
  exact ⟨rfl, rfl, hp2⟩

theorem callApp_requestID_mismatch_witness :
    (callApp 42 (some cmdDrop) (some [123, 125]) 2 true
        (freshWorld [[PipeEvent.data [111, 107, 97, 121, 43, 0, 1, 0, 9]]])).1
      = AHErrorCommsFailure ∧
    (callApp 42 (some cmdDrop) (some [123, 125]) 2 true
        (freshWorld [[PipeEvent.data [111, 107, 97, 121, 43, 0, 1, 0, 9]]])).2.1 = none ∧
    stream (callApp 42 (some cmdDrop) (some [123, 125]) 2 true
        (freshWorld [[PipeEvent.data [111, 107, 97, 121, 43, 0, 1, 0, 9]]])).2.2.inbox
      = [1, 0, 9] :=
  callApp_requestID_mismatch
    (freshWorld [[PipeEvent.data [111, 107, 97, 121, 43, 0, 1, 0, 9]]])
    42 cmdDrop (some [123, 125]) 2 true AOK [43, 0] [1, 0, 9]
    (by decide) (by decide) (by decide) (by decide) (by decide) (by decide) (by decide)
    (by decide) (by decide)

/-- Claim C3 as the code has it.  For a valid request whose writes succeed
and whose reply arrives in full (status, echoed identifier equal to the
request's, length, body): when the reply has a body and its buffer cannot be
allocated, `callApp` returns `AHErrorOutOfMemory`; otherwise it returns
`AHRequestFailed`, and so not `AHErrorCommsFailure`, when the status tag is
anything but the four bytes "okay", and 0 when the tag is "okay". -/
theorem callApp_status (w : World) (requestID : Int) (command : List Nat)
    (data : Option (List Nat)) (dataLength : Nat) (oBody : Bool)
    (tag idb lenb rbody rest : List Nat)
    (hconn : (initAppConnection w).1 = 0) (hw : WritesSucceed w)
    (hv1 : ¬ (data = none ∧ dataLength ≠ 0)) (hv2 : ¬ (data ≠ none ∧ dataLength = 0))
    (hv3 : dataLength ≤ AHMaxRequestBody)
    (hs : stream (initAppConnection w).2.inbox = tag ++ (idb ++ (lenb ++ (rbody ++ rest))))
    (ht : tag.length = 4) (hi : idb.length = 2) (hid : int16OfBytes idb = requestID)
    (hn : lenb.length = 2) (hb : rbody.length = uint16OfBytes lenb) :
    (rbody ≠ [] ∧ w.mallocScript.head? = some false →
      (callApp requestID (some command) data dataLength oBody w).1 = AHErrorOutOfMemory) ∧
    (¬ (rbody ≠ [] ∧ w.mallocScript.head? = some false) →
      (tag ≠ "okay".toList.map Char.toNat →
        (callApp requestID (some command) data dataLength oBody w).1 = AHRequestFailed ∧
        (callApp requestID (some command) data dataLength oBody w).1
          ≠ AHErrorCommsFailure) ∧
      (tag = "okay".toList.map Char.toNat →
        (callApp requestID (some command) data dataLength oBody w).1 = 0)) := by
  have hl := (initAppConnection_ok w hconn).1
  have hms := (initAppConnection_ok w hconn).2.2.2.1
  have hok : AOK = "okay".toList.map Char.toNat := by decide
  rw [callApp_connect requestID command _ _ oBody w hconn hv1 hv2 hv3,
    callApp_writes requestID command _ _ oBody _ hl
      (WritesSucceed_connect w hconn hw) hv1 hv2 hv3]
  constructor
  · rintro ⟨hr, hf⟩
    exact (readReply_alloc_failure requestID oBody
      { (initAppConnection w).2 with
        outbox := (initAppConnection w).2.outbox ++ (command.take 4 ++ int16Bytes requestID
          ++ sizeLow2Bytes dataLength ++ (data.getD []).take dataLength)
        writeScript := (initAppConnection w).2.writeScript.drop 4 }
      tag idb lenb rbody rest hl hr (by rw [← hf]; exact congrArg List.head? hms)
      hs ht hi hid hn hb).1
  · intro hna
    obtain ⟨w2, heq⟩ := readReply_exchange_alloc requestID oBody
      { (initAppConnection w).2 with
        outbox := (initAppConnection w).2.outbox ++ (command.take 4 ++ int16Bytes requestID
          ++ sizeLow2Bytes dataLength ++ (data.getD []).take dataLength)
        writeScript := (initAppConnection w).2.writeScript.drop 4 }
      tag idb lenb rbody rest hl
      (by
        intro hr hf
        exact hna ⟨hr, by rw [← hf]; exact (congrArg List.head? hms).symm⟩)
      hs ht hi hid hn hb
    rw [heq, ← hok]
    unfold checkReply
    constructor
    · intro h; simp [h]
    · intro h; simp [h]

theorem callApp_status_witness :
    (callApp 42 (some cmdDrop) (some [123, 125]) 2 true
        (freshWorld [[PipeEvent.data [111, 107, 97], PipeEvent.wouldBlock PollOutcome.ready,
          PipeEvent.data [121, 42, 0, 1, 0, 9]]])).1 = 0 ∧
    (callApp 42 (some cmdDrop) (some [123, 125]) 2 false
        (freshWorld [[PipeEvent.data [102, 97, 105], PipeEvent.wouldBlock PollOutcome.ready,
          PipeEvent.data [108, 42, 0, 1, 0, 9]]])).1 = AHRequestFailed ∧
    (callApp 42 (some cmdDrop) (some [123, 125]) 2 true
        (freshWorldAlloc [[PipeEvent.data [111, 107, 97, 121, 42, 0, 1, 0, 9]]] [false])).1
      = AHErrorOutOfMemory ∧
    ((callApp 42 (some cmdDrop) (some [123, 125]) 2 true
        (freshWorld [[PipeEvent.data [111, 107, 97], PipeEvent.wouldBlock PollOutcome.ready,
          PipeEvent.data [121, 42, 0, 1, 0, 9]]])).1,
      (callApp 42 (some cmdDrop) (some [123, 125]) 2 true
        (freshWorld [[PipeEvent.data [111, 107, 97], PipeEvent.wouldBlock PollOutcome.ready,
          PipeEvent.data [121, 42, 0, 1, 0, 9]]])).2.1) = (0, some ([9], 1)) :=
  ⟨((callApp_status
      (freshWorld [[PipeEvent.data [111, 107, 97], PipeEvent.wouldBlock PollOutcome.ready,
        PipeEvent.data [121, 42, 0, 1, 0, 9]]])
      42 cmdDrop (some [123, 125]) 2 true [111, 107, 97, 121] [42, 0] [1, 0] [9] []
      (by decide) (by decide) (by decide) (by decide) (by decide) (by decide) (by decide)
      (by decide) (by decide) (by decide) (by decide)).2 (by decide)).2 (by decide),
   (((callApp_status
      (freshWorld [[PipeEvent.data [102, 97, 105], PipeEvent.wouldBlock PollOutcome.ready,
        PipeEvent.data [108, 42, 0, 1, 0, 9]]])
      42 cmdDrop (some [123, 125]) 2 false [102, 97, 105, 108] [42, 0] [1, 0] [9] []
      (by decide) (by decide) (by decide) (by decide) (by decide) (by decide) (by decide)
      (by decide) (by decide) (by decide) (by decide)).2 (by decide)).1 (by decide)).1,
   (callApp_status
      (freshWorldAlloc [[PipeEvent.data [111, 107, 97, 121, 42, 0, 1, 0, 9]]] [false])
      42 cmdDrop (some [123, 125]) 2 true [111, 107, 97, 121] [42, 0] [1, 0] [9] []
      (by decide) (by decide) (by decide) (by decide) (by decide) (by decide) (by decide)
      (by decide) (by decide) (by decide) (by decide)).1 ⟨by decide, by decide⟩,
   by decide⟩

/-- Claim C3 fails as stated.  The request is valid, the writes succeed, the
reply arrives in full with the request's identifier 42 and a one-byte body,
and the buffer for that body cannot be allocated: with the status "fail"
`callApp` returns `AHErrorOutOfMemory`, not `AHRequestFailed`, and with the
status "okay" it returns `AHErrorOutOfMemory`, not 0. -/
theorem callApp_status_alloc_failure :
    WritesSucceed
      (freshWorldAlloc [[PipeEvent.data [102, 97, 105, 108, 42, 0, 1, 0, 9]]] [false]) ∧
    stream (initAppConnection
      (freshWorldAlloc [[PipeEvent.data [102, 97, 105, 108, 42, 0, 1, 0, 9]]] [false])).2.inbox
      = "fail".toList.map Char.toNat ++ [42, 0] ++ [1, 0] ++ [9] ∧
    int16OfBytes [42, 0] = 42 ∧
    (callApp 42 (some cmdDrop) (some [123, 125]) 2 false
        (freshWorldAlloc [[PipeEvent.data [102, 97, 105, 108, 42, 0, 1, 0, 9]]] [false])).1
      = AHErrorOutOfMemory ∧
    (callApp 42 (some cmdDrop) (some [123, 125]) 2 false
        (freshWorldAlloc [[PipeEvent.data [102, 97, 105, 108, 42, 0, 1, 0, 9]]] [false])).1
      ≠ AHRequestFailed ∧
    stream (initAppConnection
      (freshWorldAlloc [[PipeEvent.data [111, 107, 97, 121, 42, 0, 1, 0, 9]]] [false])).2.inbox
      = "okay".toList.map Char.toNat ++ [42, 0] ++ [1, 0] ++ [9] ∧
    (callApp 42 (some cmdDrop) (some [123, 125]) 2 false
        (freshWorldAlloc [[PipeEvent.data [111, 107, 97, 121, 42, 0, 1, 0, 9]]] [false])).1
      ≠ 0 := by
  decide

/-- Claim C4, which the code breaks.  The companion answers a "poll" with
the status "fail", the identifier 0 and the two-byte body "hi".  `callApp`
returns `AHRequestFailed` and has nevertheless stored the body and its
length through `oBody` and `oBodyLength`; `AHpollCompletedRequests` returns
that error without passing the buffer to the handler. -/
theorem callApp_error_with_body_example :
    (callApp 0 (some cmdPoll) none 0 true
        (liveWorld [PipeEvent.data (replyFrame [102, 97, 105, 108] 0 [104, 105])])).1
      = AHRequestFailed ∧
    (callApp 0 (some cmdPoll) none 0 true
        (liveWorld [PipeEvent.data (replyFrame [102, 97, 105, 108] 0 [104, 105])])).2.1
      = some ([104, 105], 2) ∧
    (AHpollCompletedRequests 1
        (liveWorld [PipeEvent.data (replyFrame [102, 97, 105, 108] 0 [104, 105])])).map
        (fun r => (r.1, r.2.1))
      = some (AHRequestFailed, []) := by
  decide

/-- Claim C5.  The companion has the results `bodies` pending: it answers
the successive "poll" requests with status "okay", identifier 0 and one
non-empty body each, then with an empty body.  With the connection
established, writes and allocations succeeding and more fuel than there are
results, `AHpollCompletedRequests` returns 0 after calling the handler once
for each body, in the companion's order, with the body and its length; it has
sent one "poll" request for each result and one more (a single one when
nothing is pending), and has read nothing past the empty reply. -/
theorem AHpollCompletedRequests_drains (w : World) (bodies : List (List Nat))
    (rest : List Nat) (fuel : Nat)
    (hconn : (initAppConnection w).1 = 0) (hw : WritesSucceed w) (hm : MallocsSucceed w)
    (hb : ∀ b ∈ bodies, b ≠ [] ∧ b.length ≤ AHMaxRequestBody)
    (hs : stream (initAppConnection w).2.inbox
      = (bodies.map (replyFrame AOK 0)).flatten ++ (replyFrame AOK 0 [] ++ rest))
    (hfuel : bodies.length < fuel) :
    ∃ w2, AHpollCompletedRequests fuel w
        = some (0, bodies.map (fun b => (b, b.length)), w2) ∧
      w2.outbox = w.outbox
        ++ (List.replicate (bodies.length + 1) (requestFrame cmdPoll 0 [])).flatten ∧
      stream w2.inbox = rest := by
  obtain ⟨w2, heq, hout, hst⟩ := pollLoop_drains bodies (initAppConnection w).2 [] rest fuel
    (initAppConnection_ok w hconn).1 (WritesSucceed_connect w hconn hw)
    (MallocsSucceed_connect w hconn hm) hb hs hfuel
  refine ⟨w2, ?_, ?_, hst⟩
  · rw [AHpollCompletedRequests, pollLoop_connect fuel w [] hconn, heq]
    simp
  · rw [hout, initAppConnection_outbox]

theorem AHpollCompletedRequests_drains_witness :
    ∃ w2, AHpollCompletedRequests 3
          (freshWorld [[PipeEvent.data [111, 107, 97, 121, 0, 0, 1, 0, 9, 111, 107],
            PipeEvent.wouldBlock PollOutcome.ready,
            PipeEvent.data [97, 121, 0, 0, 2, 0, 8, 7, 111, 107, 97, 121, 0, 0, 0, 0]]])
        = some (0, [([9], 1), ([8, 7], 2)], w2) ∧
      w2.outbox = [112, 111, 108, 108, 0, 0, 0, 0, 112, 111, 108, 108, 0, 0, 0, 0,
        112, 111, 108, 108, 0, 0, 0, 0] ∧
      stream w2.inbox = [] :=
  AHpollCompletedRequests_drains
    (freshWorld [[PipeEvent.data [111, 107, 97, 121, 0, 0, 1, 0, 9, 111, 107],
      PipeEvent.wouldBlock PollOutcome.ready,
      PipeEvent.data [97, 121, 0, 0, 2, 0, 8, 7, 111, 107, 97, 121, 0, 0, 0, 0]]])
    [[9], [8, 7]] [] 3 (by decide) (by decide) (by decide) (by decide) (by decide) (by decide)

/-- Claim C6.  If, starting in `w`, the first `rs.length` "poll" requests
succeed and store the non-empty bodies `rs`, and the next one returns the
error `e`, then `AHpollCompletedRequests` (with more fuel than `rs.length`)
returns exactly `e`, has called the handler exactly once for each body of
`rs`, in order, and not for the failing request, and stops in the state the
failing request left: no further request is sent. -/
theorem AHpollCompletedRequests_error (w w1 w2 : World) (rs : List (List Nat × Nat))
    (e : Int) (out : Option (List Nat × Nat)) (fuel : Nat)
    (hk : PollsDeliver w rs w1)
    (hfail : callApp 0 (some cmdPoll) none 0 true w1 = (e, out, w2)) (he : e ≠ 0)
    (hfuel : rs.length < fuel) :
    AHpollCompletedRequests fuel w = some (e, rs, w2) := by
  rw [AHpollCompletedRequests, pollLoop_error rs w w1 w2 [] e out fuel hk hfail he hfuel]
  simp

theorem AHpollCompletedRequests_error_witness :
    AHpollCompletedRequests 2
        (liveWorld [PipeEvent.data [111, 107, 97, 121, 0, 0, 1, 0, 9], PipeEvent.eof])
      = some (AHErrorCommsFailure, [([9], 1)],
          (callApp 0 (some cmdPoll) none 0 true
            (callApp 0 (some cmdPoll) none 0 true
              (liveWorld [PipeEvent.data [111, 107, 97, 121, 0, 0, 1, 0, 9],
                PipeEvent.eof])).2.2).2.2) :=
  AHpollCompletedRequests_error
    (liveWorld [PipeEvent.data [111, 107, 97, 121, 0, 0, 1, 0, 9], PipeEvent.eof])
    (callApp 0 (some cmdPoll) none 0 true
      (liveWorld [PipeEvent.data [111, 107, 97, 121, 0, 0, 1, 0, 9], PipeEvent.eof])).2.2
    (callApp 0 (some cmdPoll) none 0 true
      (callApp 0 (some cmdPoll) none 0 true
        (liveWorld [PipeEvent.data [111, 107, 97, 121, 0, 0, 1, 0, 9],
          PipeEvent.eof])).2.2).2.2
    [([9], 1)] AHErrorCommsFailure none 2
    ⟨(callApp 0 (some cmdPoll) none 0 true
      (liveWorld [PipeEvent.data [111, 107, 97, 121, 0, 0, 1, 0, 9], PipeEvent.eof])).2.2,
      by decide, rfl⟩
    (by decide) (by decide) (by decide)

/-- Claim C7.  When the command is a null pointer, or the body pointer is
null with a non-zero length, or the body pointer is set with length zero, or
the length exceeds 65535, `callApp` returns `AHErrorInvalidRequest`, stores
nothing through `oBody`, and returns the state it was given: nothing was
written, read or launched and the connection is as before. -/
theorem callApp_invalid (w : World) (requestID : Int) (command data : Option (List Nat))
    (dataLength : Nat) (oBody : Bool)
    (h : command = none ∨ (data = none ∧ dataLength ≠ 0) ∨ (data ≠ none ∧ dataLength = 0)
      ∨ dataLength > AHMaxRequestBody) :
    callApp requestID command data dataLength oBody w = (AHErrorInvalidRequest, none, w) := by
  cases command with
  | none => rfl
  | some cmd =>
    simp only [callApp]
    by_cases h1 : data = none ∧ dataLength ≠ 0
    · rw [if_pos h1]
    · by_cases h2 : data ≠ none ∧ dataLength = 0
      · rw [if_neg h1, if_pos h2]
      · by_cases h3 : dataLength > AHMaxRequestBody
        · rw [if_neg h1, if_neg h2, if_pos h3]
        · simp [h1, h2, h3] at h

theorem callApp_invalid_witness :
    callApp 7 (some cmdDrop) none 3 false (liveWorld [PipeEvent.eof])
      = (AHErrorInvalidRequest, none, liveWorld [PipeEvent.eof]) :=
  callApp_invalid (liveWorld [PipeEvent.eof]) 7 (some cmdDrop) none 3 false
    (Or.inr (Or.inl ⟨rfl, by decide⟩))

/-- Claim C8.  `AHsetup` with a null or zero-length payload, and `AHdrop`
with a null or zero-length payload or with identifier 0, return
`AHErrorInvalidRequest` and the unchanged state (the dispatcher is not
called).  On every other input they return what `callApp` returns for the
command "init" with identifier 0, respectively for the command "drop" with
the given identifier, the payload being the body and no reply body being
asked for. -/
theorem AHsetup_AHdrop_validation (w : World) (payload : Option (List Nat)) (length : Nat)
    (requestID : Int) :
    (payload = none ∨ length = 0 → AHsetup payload length w = (AHErrorInvalidRequest, w)) ∧
    (payload = none ∨ length = 0 ∨ requestID = 0 →
      AHdrop payload length requestID w = (AHErrorInvalidRequest, w)) ∧
    (¬ (payload = none ∨ length = 0) →
      AHsetup payload length w
        = ((callApp 0 (some cmdInit) payload length false w).1,
           (callApp 0 (some cmdInit) payload length false w).2.2)) ∧
    (¬ (payload = none ∨ length = 0 ∨ requestID = 0) →
      AHdrop payload length requestID w
        = ((callApp requestID (some cmdDrop) payload length false w).1,
           (callApp requestID (some cmdDrop) payload length false w).2.2)) ∧
    cmdInit = "init".toList.map Char.toNat ∧ cmdDrop = "drop".toList.map Char.toNat := by
  refine ⟨fun h => ?_, fun h => ?_, fun h => ?_, fun h => ?_, by decide, by decide⟩
  · rw [AHsetup, if_pos h]
  · rw [AHdrop, if_pos h]
  · rw [AHsetup, if_neg h]
  · rw [AHdrop, if_neg h]

/-- Claim C9, which the code breaks.  A running companion acknowledges
"quit" with "okay".  `AHclose` returns 0 and leaves the handle set without
having run `pclose`; the `AHdrop` that follows launches nothing, the count of
launched companions staying at 1. -/
theorem AHclose_keeps_connection_example :
    (AHclose (liveWorld [PipeEvent.data (replyFrame AOK 0 [])])).1 = 0 ∧
    (AHclose (liveWorld [PipeEvent.data (replyFrame AOK 0 [])])).2.appPipe = true ∧
    (AHclose (liveWorld [PipeEvent.data (replyFrame AOK 0 [])])).2.closes = 0 ∧
    (AHdrop (some [123, 125]) 2 42
      (AHclose (liveWorld [PipeEvent.data (replyFrame AOK 0 [])])).2).2.launches = 1 := by
  decide

/-- Claim C10 as the code has it.  The companion delivers only part of the
reply to a valid request (possibly nothing, possibly in several chunks) and
then nothing in time, so that one of the reads of the reply, whichever it is,
blocks until the wait for data times out.  The call in progress returns
`AHErrorCommsFailure` and stores no body; the handle stays set and `pclose`
is not run, so that the next `AHdrop`, whatever its arguments, launches no
companion.  (When the read that blocks is the read of the body, its buffer
has been allocated.) -/
theorem callApp_timeout_keeps_connection (w : World) (requestID : Int) (command : List Nat)
    (data : Option (List Nat)) (dataLength : Nat) (oBody : Bool)
    (hconn : (initAppConnection w).1 = 0) (hw : WritesSucceed w)
    (hv1 : ¬ (data = none ∧ dataLength ≠ 0)) (hv2 : ¬ (data ≠ none ∧ dataLength = 0))
    (hv3 : dataLength ≤ AHMaxRequestBody)
    (hst : stalls (initAppConnection w).2.inbox = true)
    (hinc : ReplyIncomplete requestID (stream (initAppConnection w).2.inbox))
    (hm : 8 ≤ (stream (initAppConnection w).2.inbox).length →
      w.mallocScript.head? ≠ some false) :
    (callApp requestID (some command) data dataLength oBody w).1 = AHErrorCommsFailure ∧
    (callApp requestID (some command) data dataLength oBody w).2.1 = none ∧
    (callApp requestID (some command) data dataLength oBody w).2.2.appPipe = true ∧
    (callApp requestID (some command) data dataLength oBody w).2.2.closes = w.closes ∧
    ∀ (dropData : Option (List Nat)) (dropDataLength : Nat) (dropID : Int),
      (AHdrop dropData dropDataLength dropID
          (callApp requestID (some command) data dataLength oBody w).2.2).2.launches
        = (callApp requestID (some command) data dataLength oBody w).2.2.launches := by
  have hl := (initAppConnection_ok w hconn).1
  have hc := (initAppConnection_ok w hconn).2.2.2.2
  have hms := (initAppConnection_ok w hconn).2.2.2.1
  rw [callApp_connect requestID command _ _ oBody w hconn hv1 hv2 hv3,
    callApp_writes requestID command _ _ oBody _ hl
      (WritesSucceed_connect w hconn hw) hv1 hv2 hv3]
  obtain ⟨pipe3, ms, heq⟩ := readReply_stall requestID oBody
    { (initAppConnection w).2 with
      outbox := (initAppConnection w).2.outbox ++ (command.take 4 ++ int16Bytes requestID
        ++ sizeLow2Bytes dataLength ++ (data.getD []).take dataLength)
      writeScript := (initAppConnection w).2.writeScript.drop 4 }
    hl hst hinc (by
      intro h8 hf
      exact hm h8 (by rw [← hf]; exact (congrArg List.head? hms).symm))
  rw [heq]
  refine ⟨rfl, rfl, hl, hc, ?_⟩
  intro d n i
  refine AHdrop_launches d n i _ ?_
  exact hl

theorem callApp_timeout_keeps_connection_witness :
    ((callApp 42 (some cmdDrop) (some [123, 125]) 2 true
        (freshWorld [[PipeEvent.data [111, 107, 97, 121, 42, 0],
          PipeEvent.wouldBlock PollOutcome.ready, PipeEvent.data [3, 0, 9],
          PipeEvent.wouldBlock PollOutcome.timeout, PipeEvent.data [8, 7]]])).1
        = AHErrorCommsFailure ∧
      (callApp 42 (some cmdDrop) (some [123, 125]) 2 true
        (freshWorld [[PipeEvent.data [111, 107, 97, 121, 42, 0],
          PipeEvent.wouldBlock PollOutcome.ready, PipeEvent.data [3, 0, 9],
          PipeEvent.wouldBlock PollOutcome.timeout, PipeEvent.data [8, 7]]])).2.2.appPipe
        = true ∧
      ∀ (dropData : Option (List Nat)) (dropDataLength : Nat) (dropID : Int),
        (AHdrop dropData dropDataLength dropID
          (callApp 42 (some cmdDrop) (some [123, 125]) 2 true
            (freshWorld [[PipeEvent.data [111, 107, 97, 121, 42, 0],
              PipeEvent.wouldBlock PollOutcome.ready, PipeEvent.data [3, 0, 9],
              PipeEvent.wouldBlock PollOutcome.timeout,
              PipeEvent.data [8, 7]]])).2.2).2.launches = 1) ∧
    ((callApp 42 (some cmdDrop) (some [123, 125]) 2 false
        (liveWorld [PipeEvent.data [111, 107, 97, 121, 42],
          PipeEvent.wouldBlock PollOutcome.timeout])).1 = AHErrorCommsFailure ∧
      (callApp 42 (some cmdDrop) (some [123, 125]) 2 false
        (liveWorld [PipeEvent.data [111, 107, 97, 121, 42],
          PipeEvent.wouldBlock PollOutcome.timeout])).2.2.closes = 0) ∧
    (callApp 42 (some cmdDrop) (some [123, 125]) 2 true
        (freshWorld [[PipeEvent.data [111, 107, 97, 121, 42, 0],
          PipeEvent.wouldBlock PollOutcome.ready, PipeEvent.data [3, 0, 9],
          PipeEvent.wouldBlock PollOutcome.timeout, PipeEvent.data [8, 7]]])
      = (453, none,
          { appPipe := true, launches := 1, closes := 0,
            outbox := [100, 114, 111, 112, 42, 0, 2, 0, 123, 125],
            inbox := [PipeEvent.data [8, 7]], upcoming := [], launchScript := [],
            writeScript := [], mallocScript := [] }) ∧
      callApp 42 (some cmdDrop) (some [123, 125]) 2 false
        (liveWorld [PipeEvent.data [111, 107, 97, 121, 42],
          PipeEvent.wouldBlock PollOutcome.timeout])
      = (453, none,
          { appPipe := true, launches := 1, closes := 0,
            outbox := [100, 114, 111, 112, 42, 0, 2, 0, 123, 125],
            inbox := [], upcoming := [], launchScript := [],
            writeScript := [], mallocScript := [] })) :=
  ⟨⟨(callApp_timeout_keeps_connection
      (freshWorld [[PipeEvent.data [111, 107, 97, 121, 42, 0],
        PipeEvent.wouldBlock PollOutcome.ready, PipeEvent.data [3, 0, 9],
        PipeEvent.wouldBlock PollOutcome.timeout, PipeEvent.data [8, 7]]])
      42 cmdDrop (some [123, 125]) 2 true (by decide) (by decide) (by decide) (by decide)
      (by decide) (by decide) (by decide) (by decide)).1,
    (callApp_timeout_keeps_connection
      (freshWorld [[PipeEvent.data [111, 107, 97, 121, 42, 0],
        PipeEvent.wouldBlock PollOutcome.ready, PipeEvent.data [3, 0, 9],
        PipeEvent.wouldBlock PollOutcome.timeout, PipeEvent.data [8, 7]]])
      42 cmdDrop (some [123, 125]) 2 true (by decide) (by decide) (by decide) (by decide)
      (by decide) (by decide) (by decide) (by decide)).2.2.1,
    (callApp_timeout_keeps_connection
      (freshWorld [[PipeEvent.data [111, 107, 97, 121, 42, 0],
        PipeEvent.wouldBlock PollOutcome.ready, PipeEvent.data [3, 0, 9],
        PipeEvent.wouldBlock PollOutcome.timeout, PipeEvent.data [8, 7]]])
      42 cmdDrop (some [123, 125]) 2 true (by decide) (by decide) (by decide) (by decide)
      (by decide) (by decide) (by decide) (by decide)).2.2.2.2⟩,
   ⟨(callApp_timeout_keeps_connection
      (liveWorld [PipeEvent.data [111, 107, 97, 121, 42],
        PipeEvent.wouldBlock PollOutcome.timeout])
      42 cmdDrop (some [123, 125]) 2 false (by decide) (by decide) (by decide) (by decide)
      (by decide) (by decide) (by decide) (by decide)).1,
    (callApp_timeout_keeps_connection
      (liveWorld [PipeEvent.data [111, 107, 97, 121, 42],
        PipeEvent.wouldBlock PollOutcome.timeout])
      42 cmdDrop (some [123, 125]) 2 false (by decide) (by decide) (by decide) (by decide)
      (by decide) (by decide) (by decide) (by decide)).2.2.2.1⟩,
   by decide⟩

/-- Claim C10 fails as stated.  A running companion sends nothing and the
wait times out: `AHdrop` returns `AHErrorCommsFailure` with the handle still
set, and the next `AHdrop` does not launch a companion. -/
theorem AHdrop_timeout_no_relaunch :
    (AHdrop (some [123, 125]) 2 42
        (liveWorld [PipeEvent.wouldBlock PollOutcome.timeout])).1 = AHErrorCommsFailure ∧
    (AHdrop (some [123, 125]) 2 42
        (liveWorld [PipeEvent.wouldBlock PollOutcome.timeout])).2.appPipe = true ∧
    ¬ ((liveWorld [PipeEvent.wouldBlock PollOutcome.timeout]).launches <
      (AHdrop (some [123, 125]) 2 43
        (AHdrop (some [123, 125]) 2 42
          (liveWorld [PipeEvent.wouldBlock PollOutcome.timeout])).2).2.launches) := by
  decide

/-- The five codes that have a label of their own in the `switch` get five
different messages. -/
theorem AHerrorCodeToMessage_labelled_distinct :
    ∀ a ∈ [AHErrorInvalidRequest, AHErrorLaunchFailure, AHErrorCommsFailure,
        AHErrorOutOfMemory, AHErrorUnknownError],
      ∀ b ∈ [AHErrorInvalidRequest, AHErrorLaunchFailure, AHErrorCommsFailure,
        AHErrorOutOfMemory, AHErrorUnknownError],
        AHerrorCodeToMessage a = AHerrorCodeToMessage b → a = b := by
  decide

/-- Every code outside the four with a message of their own gets the message
of the `default` branch: the lookup is total. -/
theorem AHerrorCodeToMessage_default (errorCode : Int)
    (h1 : errorCode ≠ AHErrorCommsFailure) (h2 : errorCode ≠ AHErrorInvalidRequest)
    (h3 : errorCode ≠ AHErrorLaunchFailure) (h4 : errorCode ≠ AHErrorOutOfMemory) :
    AHerrorCodeToMessage errorCode = "Unknown error" := by
  unfold AHerrorCodeToMessage
  simp [h1, h2, h3, h4]

/-- Claim C11, which the code breaks.  `AHRequestFailed` and
`AHErrorUnknownError` are two different error kinds, and
`AHerrorCodeToMessage` gives both the same string, "Unknown error": the
`switch` has no label for `AHRequestFailed`. -/
theorem AHerrorCodeToMessage_requestFailed_example :
    AHRequestFailed ≠ AHErrorUnknownError ∧
    AHerrorCodeToMessage AHRequestFailed = "Unknown error" ∧
    AHerrorCodeToMessage AHErrorUnknownError = "Unknown error" := by
  decide

end Allihoopa
